import Mathlib

/-!
# Payment service: entity state machine and card validation

A shallow embedding of `hsibAD/payment-service`.

* `internal/domain/payment.go` (status and method stored as `string`) is embedded in
  namespace `Internal.Domain`.
* `payment-service/internal/domain/payment.go` (status and method stored as the named string
  types `PaymentStatus` / `PaymentMethod`) is embedded in namespace `PaymentService.Domain`.
* `internal/handler/payment_handler.go` is embedded in namespace `Internal.Handler`.
* `internal/infrastructure/payment/credit_card_processor.go` is embedded in namespace
  `Internal.Infrastructure.Payment`, and `internal/infrastructure/blockchain/
  metamask_processor.go` in namespace `Internal.Infrastructure.Blockchain`. Both import the
  domain package of the module `payment-service` (the one whose `MetaMaskInfo` has the field
  `AmountWei`), so they work on the types of `PaymentService.Domain`.

Conventions of the embedding.

* A method with a pointer receiver `func (p *Payment) M(args)` becomes a function from the
  payment before the call to the payment after the call (explicit state passing); a method
  that also returns an `error` returns the pair of the payment after the call and the error
  (`none` is Go's `nil`).
* Every `time.Now()` in the source is an explicit clock reading passed as an argument, one
  argument per call site.
* A Go `string` is a Lean `String`; the code inspects only ASCII characters, on which bytes
  and code points coincide.
* A Go `float64` is its IEEE 754 binary64 bit pattern (`Float64`).
* A call to an external service (the card gateway, the chain node) is a function of the
  request given as an argument, and every request sent is recorded, in order, in the result.
* A Go panic is the result `none` (or a constructor named for it) of the function.
-/

/-- Clock reading of `time.Now()` as stored in a `time.Time` field. -/
abbrev Time := Int

/-- Bit pattern of a Go `float64` (IEEE 754 binary64): sign bit, 11 exponent bits and
52 fraction bits. -/
structure Float64 where
  sign : Bool
  exponent : Fin 2048
  mantissa : Fin 4503599627370496
deriving DecidableEq

namespace Float64

/-- Not-a-number: all exponent bits set and a non-zero fraction. -/
def isNaN (x : Float64) : Bool :=
  decide (x.exponent.val = 2047) && decide (x.mantissa.val ≠ 0)

/-- Positive or negative zero. -/
def isZero (x : Float64) : Bool :=
  decide (x.exponent.val = 0) && decide (x.mantissa.val = 0)

/-- Go's `x <= 0` on `float64`: false on NaN, true on both zeros, otherwise decided by the
sign bit. -/
def leZero (x : Float64) : Bool :=
  !x.isNaN && (x.isZero || x.sign)

/-- Go's `x > 0` on `float64`: false on NaN and on both zeros, otherwise decided by the sign
bit. -/
def gtZero (x : Float64) : Bool :=
  !x.isNaN && !x.isZero && !x.sign

/-- The value `+0.0`. -/
def zero : Float64 := ⟨false, ⟨0, by decide⟩, ⟨0, by decide⟩⟩

/-- The value `100.0`, that is `1.5625 * 2^6`. -/
def hundred : Float64 := ⟨false, ⟨1029, by decide⟩, ⟨2533274790395904, by decide⟩⟩

/-- The quiet NaN returned by Go's `math.NaN()`, bit pattern `0x7FF8000000000001`. -/
def nan : Float64 := ⟨false, ⟨2047, by decide⟩, ⟨2251799813685249, by decide⟩⟩

end Float64

/-! ## `payment-service/internal/domain/payment.go` -/

namespace PaymentService.Domain

/-- Go `error` values produced by the domain package: the package-level sentinels and the
anonymous value built by `errors.New` inside `Refund`. -/
inductive Error where
  | ErrInvalidPaymentID
  | ErrInvalidOrderID
  | ErrInvalidUserID
  | ErrInvalidAmount
  | ErrInvalidCurrency
  | ErrInvalidPaymentMethod
  | New (msg : String)
deriving DecidableEq, Repr

/-- Go: `type PaymentStatus string`. -/
abbrev PaymentStatus := String

def PaymentStatusPending : PaymentStatus := "PENDING"
def PaymentStatusProcessing : PaymentStatus := "PROCESSING"
def PaymentStatusCompleted : PaymentStatus := "COMPLETED"
def PaymentStatusFailed : PaymentStatus := "FAILED"
def PaymentStatusCancelled : PaymentStatus := "CANCELLED"
def PaymentStatusRefunded : PaymentStatus := "REFUNDED"

/-- Go: `type PaymentMethod string`. -/
abbrev PaymentMethod := String

def PaymentMethodCreditCard : PaymentMethod := "CREDIT_CARD"
def PaymentMethodMetaMask : PaymentMethod := "METAMASK"

structure Payment where
  ID : String
  OrderID : String
  UserID : String
  Amount : Float64
  Currency : String
  Status : PaymentStatus
  PaymentMethod : PaymentMethod
  TransactionID : String
  ErrorMessage : String
  CreatedAt : Time
  UpdatedAt : Time
deriving DecidableEq

structure CreditCardInfo where
  CardNumber : String
  ExpiryMonth : String
  ExpiryYear : String
  CVV : String
  CardholderName : String
deriving DecidableEq

structure MetaMaskInfo where
  WalletAddress : String
  TransactionHash : String
  ContractAddress : String
  AmountWei : String
deriving DecidableEq

/-- Constructor `NewPayment`; `now1` and `now2` are the two `time.Now()` readings, in source order.
`Except.error` is the `(nil, err)` return. -/
def NewPayment (orderID userID : String) (amount : Float64) (currency : String)
    (method : PaymentMethod) (now1 now2 : Time) : Except Error Payment :=
  if orderID = "" then
    .error .ErrInvalidOrderID
  else if userID = "" then
    .error .ErrInvalidUserID
  else if amount.leZero then
    .error .ErrInvalidAmount
  else if currency = "" then
    .error .ErrInvalidCurrency
  else if method ≠ PaymentMethodCreditCard ∧ method ≠ PaymentMethodMetaMask then
    .error .ErrInvalidPaymentMethod
  else
    .ok
      { ID := ""
        OrderID := orderID
        UserID := userID
        Amount := amount
        Currency := currency
        Status := PaymentStatusPending
        PaymentMethod := method
        TransactionID := ""
        ErrorMessage := ""
        CreatedAt := now1
        UpdatedAt := now2 }

namespace Payment

def UpdateStatus (p : Payment) (status : PaymentStatus) (now : Time) : Payment :=
  { p with Status := status, UpdatedAt := now }

def SetTransactionID (p : Payment) (txID : String) (now : Time) : Payment :=
  { p with TransactionID := txID, UpdatedAt := now }

def SetError (p : Payment) (err : String) (now : Time) : Payment :=
  { p with ErrorMessage := err, Status := PaymentStatusFailed, UpdatedAt := now }

def IsCompleted (p : Payment) : Bool :=
  decide (p.Status = PaymentStatusCompleted)

def IsPending (p : Payment) : Bool :=
  decide (p.Status = PaymentStatusPending) || decide (p.Status = PaymentStatusProcessing)

def CanBeRetried (p : Payment) : Bool :=
  decide (p.Status = PaymentStatusFailed) || decide (p.Status = PaymentStatusCancelled)

def MarkAsProcessing (p : Payment) (now : Time) : Payment :=
  if p.Status = PaymentStatusPending then
    { p with Status := PaymentStatusProcessing, UpdatedAt := now }
  else p

def MarkAsCompleted (p : Payment) (transactionID : String) (now : Time) : Payment :=
  if p.IsPending then
    { p with Status := PaymentStatusCompleted, TransactionID := transactionID, UpdatedAt := now }
  else p

def Cancel (p : Payment) (now : Time) : Payment :=
  if p.IsPending then
    { p with Status := PaymentStatusCancelled, UpdatedAt := now }
  else p

/-- Method `Refund`: the payment after the call and the returned `error`. -/
def Refund (p : Payment) (now : Time) : Payment × Option Error :=
  if p.Status ≠ PaymentStatusCompleted then
    (p, some (.New "only completed payments can be refunded"))
  else
    ({ p with Status := PaymentStatusRefunded, UpdatedAt := now }, none)

end Payment

/-- A call of one of the exported mutating methods of `Payment`, with its arguments. -/
inductive Call where
  | UpdateStatus (status : PaymentStatus)
  | SetTransactionID (txID : String)
  | SetError (err : String)
  | MarkAsProcessing
  | MarkAsCompleted (transactionID : String)
  | Cancel
  | Refund
deriving DecidableEq

namespace Call

/-- The payment after performing the call at clock reading `now`. -/
def run (c : Call) (p : Payment) (now : Time) : Payment :=
  match c with
  | .UpdateStatus status => p.UpdateStatus status now
  | .SetTransactionID txID => p.SetTransactionID txID now
  | .SetError err => p.SetError err now
  | .MarkAsProcessing => p.MarkAsProcessing now
  | .MarkAsCompleted transactionID => p.MarkAsCompleted transactionID now
  | .Cancel => p.Cancel now
  | .Refund => (p.Refund now).1

/-- The call is `UpdateStatus`. -/
def isUpdateStatus : Call → Bool
  | .UpdateStatus _ => true
  | _ => false

/-- The call is the fail transition `SetError`. -/
def isSetError : Call → Bool
  | .SetError _ => true
  | _ => false

end Call

/-- The edges of the lifecycle graph: PENDING → PROCESSING, an open status (PENDING or
PROCESSING) to COMPLETED, FAILED or CANCELLED, and COMPLETED → REFUNDED. -/
def AllowedEdge (s t : PaymentStatus) : Prop :=
  (s = PaymentStatusPending ∧ t = PaymentStatusProcessing) ∨
  ((s = PaymentStatusPending ∨ s = PaymentStatusProcessing) ∧
    (t = PaymentStatusCompleted ∨ t = PaymentStatusFailed ∨ t = PaymentStatusCancelled)) ∨
  (s = PaymentStatusCompleted ∧ t = PaymentStatusRefunded)

instance (s t : PaymentStatus) : Decidable (AllowedEdge s t) := by
  unfold AllowedEdge; infer_instance

/-- The status after a call is legal with respect to the status before it: unchanged, moved
along an edge of the lifecycle graph, or overridden to FAILED by the fail transition. -/
def LegalMove (c : Call) (s t : PaymentStatus) : Prop :=
  t = s ∨ AllowedEdge s t ∨ (c.isSetError = true ∧ t = PaymentStatusFailed)

instance (c : Call) (s t : PaymentStatus) : Decidable (LegalMove c s t) := by
  unfold LegalMove; infer_instance

/-- A sample payment: order `order-1` of user `user-1`, 100.0 USD by card, with the given
status and transaction reference. -/
def sample (status : PaymentStatus) (txID : String) : Payment :=
  { ID := "pay-1"
    OrderID := "order-1"
    UserID := "user-1"
    Amount := Float64.hundred
    Currency := "USD"
    Status := status
    PaymentMethod := PaymentMethodCreditCard
    TransactionID := txID
    ErrorMessage := ""
    CreatedAt := 1000
    UpdatedAt := 1000 }

end PaymentService.Domain

/-! ## `internal/domain/payment.go` -/

namespace Internal.Domain

/-- Go `error` values produced by the domain package: the package-level sentinels and the
anonymous value built by `errors.New` inside `Refund`. -/
inductive Error where
  | ErrInvalidPaymentID
  | ErrInvalidOrderID
  | ErrInvalidUserID
  | ErrInvalidAmount
  | ErrInvalidCurrency
  | ErrInvalidPaymentMethod
  | New (msg : String)
deriving DecidableEq, Repr

/-- Go: `type PaymentStatus string`. -/
abbrev PaymentStatus := String

def PaymentStatusPending : PaymentStatus := "PENDING"
def PaymentStatusProcessing : PaymentStatus := "PROCESSING"
def PaymentStatusCompleted : PaymentStatus := "COMPLETED"
def PaymentStatusFailed : PaymentStatus := "FAILED"
def PaymentStatusCancelled : PaymentStatus := "CANCELLED"
def PaymentStatusRefunded : PaymentStatus := "REFUNDED"

/-- Go: `type PaymentMethod string`. -/
abbrev PaymentMethod := String

def PaymentMethodCreditCard : PaymentMethod := "CREDIT_CARD"
def PaymentMethodMetaMask : PaymentMethod := "METAMASK"

/-- The conversion `string(x)` of a value of a named string type. -/
def string (x : String) : String := x

structure Payment where
  ID : String
  OrderID : String
  UserID : String
  Amount : Float64
  Currency : String
  Status : String
  PaymentMethod : String
  TransactionID : String
  ErrorMessage : String
  CreatedAt : Time
  UpdatedAt : Time
deriving DecidableEq

structure CreditCardInfo where
  CardNumber : String
  ExpiryMonth : String
  ExpiryYear : String
  CVV : String
  CardholderName : String
deriving DecidableEq

/-- Constructor `NewPayment`; `now1` and `now2` are the two `time.Now()` readings, in source order.
`Except.error` is the `(nil, err)` return. -/
def NewPayment (orderID userID : String) (amount : Float64) (currency : String)
    (method : PaymentMethod) (now1 now2 : Time) : Except Error Payment :=
  if orderID = "" then
    .error .ErrInvalidOrderID
  else if userID = "" then
    .error .ErrInvalidUserID
  else if amount.leZero then
    .error .ErrInvalidAmount
  else if currency = "" then
    .error .ErrInvalidCurrency
  else if method ≠ PaymentMethodCreditCard ∧ method ≠ PaymentMethodMetaMask then
    .error .ErrInvalidPaymentMethod
  else
    .ok
      { ID := ""
        OrderID := orderID
        UserID := userID
        Amount := amount
        Currency := currency
        Status := string PaymentStatusPending
        PaymentMethod := string method
        TransactionID := ""
        ErrorMessage := ""
        CreatedAt := now1
        UpdatedAt := now2 }

namespace Payment

def UpdateStatus (p : Payment) (status : PaymentStatus) (now : Time) : Payment :=
  { p with Status := string status, UpdatedAt := now }

def SetTransactionID (p : Payment) (txID : String) (now : Time) : Payment :=
  { p with TransactionID := txID, UpdatedAt := now }

def SetError (p : Payment) (err : String) (now : Time) : Payment :=
  { p with ErrorMessage := err, Status := string PaymentStatusFailed, UpdatedAt := now }

def IsCompleted (p : Payment) : Bool :=
  decide (p.Status = string PaymentStatusCompleted)

def IsPending (p : Payment) : Bool :=
  decide (p.Status = string PaymentStatusPending) ||
    decide (p.Status = string PaymentStatusProcessing)

def CanBeRetried (p : Payment) : Bool :=
  decide (p.Status = string PaymentStatusFailed) ||
    decide (p.Status = string PaymentStatusCancelled)

def MarkAsProcessing (p : Payment) (now : Time) : Payment :=
  if p.Status = string PaymentStatusPending then
    { p with Status := string PaymentStatusProcessing, UpdatedAt := now }
  else p

def MarkAsCompleted (p : Payment) (transactionID : String) (now : Time) : Payment :=
  if p.IsPending then
    { p with
      Status := string PaymentStatusCompleted
      TransactionID := transactionID
      UpdatedAt := now }
  else p

def Cancel (p : Payment) (now : Time) : Payment :=
  if p.IsPending then
    { p with Status := string PaymentStatusCancelled, UpdatedAt := now }
  else p

/-- Method `Refund`: the payment after the call and the returned `error`. -/
def Refund (p : Payment) (now : Time) : Payment × Option Error :=
  if p.Status ≠ string PaymentStatusCompleted then
    (p, some (.New "only completed payments can be refunded"))
  else
    ({ p with Status := string PaymentStatusRefunded, UpdatedAt := now }, none)

end Payment

/-- A sample payment: order `order-1` of user `user-1`, 100.0 USD by card, with the given
status and transaction reference. -/
def sample (status : String) (txID : String) : Payment :=
  { ID := "pay-1"
    OrderID := "order-1"
    UserID := "user-1"
    Amount := Float64.hundred
    Currency := "USD"
    Status := status
    PaymentMethod := string PaymentMethodCreditCard
    TransactionID := txID
    ErrorMessage := ""
    CreatedAt := 1000
    UpdatedAt := 1000 }

end Internal.Domain

/-! ## `internal/infrastructure/payment/credit_card_processor.go` -/

namespace Internal.Infrastructure.Payment

open PaymentService.Domain

/-- An error returned by the client library of the card gateway. -/
structure StripeError where
  msg : String
deriving DecidableEq, Repr

/-- Go `error` values returned by the card processor: the package-level sentinels, an error
of the gateway wrapped by `fmt.Errorf(format, err)`, and the anonymous value built by
`errors.New` inside `RefundPayment`. -/
inductive Error where
  | ErrInvalidCardNumber
  | ErrInvalidExpiryMonth
  | ErrInvalidExpiryYear
  | ErrInvalidCVV
  | ErrCardExpired
  | ErrPaymentFailed
  | Errorf (format : String) (err : StripeError)
  | New (msg : String)
deriving DecidableEq, Repr

/-- The character class `\s` of Go's `regexp` (RE2 syntax): `[\t\n\f\r ]`. -/
def isWhitespace (c : Char) : Bool :=
  c = '\t' || c = '\n' || c = '\x0c' || c = '\r' || c = ' '

/-- The character class `[\s-]`: a whitespace character or a dash. -/
def isSeparator (c : Char) : Bool :=
  isWhitespace c || c = '-'

/-- The character class `\d` of Go's `regexp`: an ASCII digit. -/
def isDigit (c : Char) : Bool :=
  decide ('0' ≤ c) && decide (c ≤ '9')

/-- Go `regexp.MustCompile("[\s-]").ReplaceAllString(number, "")`: every match is one character
of the class and is replaced by the empty string. -/
def removeSeparators (number : List Char) : List Char :=
  number.filter (fun c => !isSeparator c)

/-- Go `regexp.MatchString("^\d+$", number)`: the whole text is one or more ASCII digits. -/
def matchDigits (number : List Char) : Bool :=
  !number.isEmpty && number.all isDigit

/-- Go `int(number[i] - '0')`: the subtraction is on bytes, modulo 256. -/
def digitAt (number : List Char) (i : Nat) : Nat :=
  ((number.getD i '0').toNat + 256 - ('0').toNat) % 256

/-- The body of the Luhn loop for one index: the digit is doubled when `isEven` is set, and 9
is subtracted from a doubled value above 9. -/
def luhnStep (digit : Nat) (isEven : Bool) : Nat :=
  if isEven then
    if digit * 2 > 9 then digit * 2 - 9 else digit * 2
  else digit

/-- The loop `for i := len(number) - 1; i >= 0; i--` with state `sum`, `isEven`: the first
argument is `i + 1`, so that `0` is the exit of the loop; the result is the final `sum`. -/
def luhnLoop (number : List Char) : Nat → Nat → Bool → Nat
  | 0, sum, _ => sum
  | i + 1, sum, isEven =>
    luhnLoop number i (sum + luhnStep (digitAt number i) isEven) (!isEven)

/-- Function `isValidCardNumber` on the characters of the argument. -/
def isValidCardNumberChars (number : List Char) : Bool :=
  let number := removeSeparators number
  if !matchDigits number then
    false
  else if number.length < 13 ∨ number.length > 19 then
    false
  else
    luhnLoop number number.length 0 false % 10 == 0

def isValidCardNumber (number : String) : Bool :=
  isValidCardNumberChars number.toList

/-- Function `isValidCVV`: `regexp.MatchString("^\d{3,4}$", cvv)`, three or four ASCII digits. -/
def isValidCVV (cvv : String) : Bool :=
  let cs := cvv.toList
  (cs.length == 3 || cs.length == 4) && cs.all isDigit

/-- Value of a sequence of ASCII digits read in base 10. -/
def decimalValue (ds : List Char) : Nat :=
  ds.foldl (fun n c => n * 10 + (c.toNat - ('0').toNat)) 0

/-- Go's `strconv.Atoi` for a 64-bit `int`: an optional sign followed by one or more ASCII
digits, within the range of `int`; `none` is the `err != nil` return (syntax or range). -/
def Atoi (s : String) : Option Int :=
  let cs := s.toList
  let neg := decide (cs.head? = some '-')
  let ds := if cs.head? = some '-' ∨ cs.head? = some '+' then cs.tail else cs
  if !matchDigits ds then
    none
  else
    let n : Int := if neg then -(decimalValue ds : Int) else (decimalValue ds : Int)
    if n < -9223372036854775808 ∨ n > 9223372036854775807 then none else some n

/-- One reading of the clock by `time.Now()`: its `Year()` and `int(Month())`. -/
structure Clock where
  Year : Int
  Month : Int
deriving DecidableEq

/-- Method `CreditCardProcessor.ValidateCard`; `now1` is the clock reading of the expiry-year check
and `now2` the one of the expiry check. `none` is the `nil` return. -/
def ValidateCard (cardInfo : CreditCardInfo) (now1 now2 : Clock) : Option Error :=
  if !isValidCardNumber cardInfo.CardNumber then
    some .ErrInvalidCardNumber
  else
    match Atoi cardInfo.ExpiryMonth with
    | none => some .ErrInvalidExpiryMonth
    | some month =>
      if month < 1 ∨ month > 12 then
        some .ErrInvalidExpiryMonth
      else
        match Atoi cardInfo.ExpiryYear with
        | none => some .ErrInvalidExpiryYear
        | some year =>
          if year < now1.Year then
            some .ErrInvalidExpiryYear
          else if year < now2.Year ∨ (year = now2.Year ∧ month < now2.Month) then
            some .ErrCardExpired
          else if !isValidCVV cardInfo.CVV then
            some .ErrInvalidCVV
          else
            none

/-! ### The card number check as the specification words it -/

/-- Contribution of the digit `d` standing `j` places left of the rightmost digit: every
second digit moving left is doubled, and 9 is subtracted from a doubled value above 9. -/
def luhnContribution (j d : Nat) : Nat :=
  if j % 2 = 1 then (if 2 * d > 9 then 2 * d - 9 else 2 * d) else d

/-- Luhn sum of a sequence of digits given left to right: the sum of the contributions of
all digits, positions counted from the rightmost digit. -/
def luhnSum (digits : List Nat) : Nat :=
  ((digits.reverse.enum).map (fun jd => luhnContribution jd.1 jd.2)).sum

/-- Numeric value of an ASCII digit. -/
def digitValue (c : Char) : Nat := c.toNat - 48

/-- The card number check in the words of the specification: strip whitespace and dashes,
then require only digits, a length from 13 to 19 and a Luhn sum divisible by 10. -/
def LuhnValid (s : List Char) : Prop :=
  let t := s.filter (fun c => !(isWhitespace c || c = '-'))
  (∀ c ∈ t, '0' ≤ c ∧ c ≤ '9') ∧ 13 ≤ t.length ∧ t.length ≤ 19 ∧
    luhnSum (t.map digitValue) % 10 = 0

/-! ### The card checks as the specification words them -/

/-- The expiry month is an integer in [1,12]. -/
def MonthInRange (cardInfo : CreditCardInfo) : Prop :=
  ∃ m : Int, Atoi cardInfo.ExpiryMonth = some m ∧ 1 ≤ m ∧ m ≤ 12

/-- The expiry (year, month) is an integer date at or after the current (year, month). -/
def NotExpired (cardInfo : CreditCardInfo) (now : Clock) : Prop :=
  ∃ y m : Int, Atoi cardInfo.ExpiryYear = some y ∧ Atoi cardInfo.ExpiryMonth = some m ∧
    (now.Year < y ∨ (y = now.Year ∧ now.Month ≤ m))

/-- The CVV is exactly 3 or 4 digits. -/
def CVVThreeOrFourDigits (cardInfo : CreditCardInfo) : Prop :=
  (cardInfo.CVV.toList.length = 3 ∨ cardInfo.CVV.toList.length = 4) ∧
    ∀ c ∈ cardInfo.CVV.toList, '0' ≤ c ∧ c ≤ '9'

/-- A card valid on 2026-11: Luhn-valid number, expiry 12/2030, three-digit CVV. -/
def sampleCard : CreditCardInfo :=
  { CardNumber := "4532015112830366"
    ExpiryMonth := "12"
    ExpiryYear := "2030"
    CVV := "123"
    CardholderName := "A Holder" }

end Internal.Infrastructure.Payment

/-! ## Arithmetic on `float64` and on `math/big` floats -/

/-- Number of halvings that bring `n` to 0, added to `acc`, with at most `fuel` halvings. -/
def bitLengthAux : Nat → Nat → Nat → Nat
  | 0, _, acc => acc
  | fuel + 1, n, acc => if n = 0 then acc else bitLengthAux fuel (n / 2) (acc + 1)

/-- Number of bits of a natural number: 0 for 0, otherwise the position of the leading bit
plus one. -/
def bitLength (n : Nat) : Nat := bitLengthAux n n 0

/-- Quotient of `m` by `2 ^ shift` rounded to nearest, ties to even. -/
def roundHalfEven (m shift : Nat) : Nat :=
  let q := m / 2 ^ shift
  let r := m % 2 ^ shift
  if shift = 0 then m
  else if r > 2 ^ (shift - 1) ∨ (r = 2 ^ (shift - 1) ∧ q % 2 = 1) then q + 1
  else q

/-- Truncation towards zero of the number `m * 2 ^ e`, negated when `neg` is set. -/
def truncScaled (neg : Bool) (m : Nat) (e : Int) : Int :=
  let a : Nat := if 0 ≤ e then m * 2 ^ e.toNat else m / 2 ^ (-e).toNat
  if neg then -(a : Int) else (a : Int)

namespace Float64

/-- An infinity: all exponent bits set and a zero fraction. -/
def isInf (x : Float64) : Bool :=
  decide (x.exponent.val = 2047) && decide (x.mantissa.val = 0)

/-- Integer significand of a finite value: the fraction bits, with the implicit leading bit
on a normal number. -/
def significand (x : Float64) : Nat :=
  if x.exponent.val = 0 then x.mantissa.val else 4503599627370496 + x.mantissa.val

/-- Binary exponent of the unit of the significand of a finite value: the value is
`significand * 2 ^ exponent2`, negated when the sign bit is set. -/
def exponent2 (x : Float64) : Int :=
  if x.exponent.val = 0 then -1074 else (x.exponent.val : Int) - 1075

/-- Infinity of the given sign. -/
def inf (sign : Bool) : Float64 := ⟨sign, ⟨2047, by decide⟩, ⟨0, by decide⟩⟩

/-- The `float64` nearest to `m * 2 ^ e` with the given sign, ties to even (IEEE 754
round-to-nearest-even, with gradual underflow and overflow to infinity). -/
def ofScaled (sign : Bool) (m : Nat) (e : Int) : Float64 :=
  if m = 0 then ⟨sign, ⟨0, by decide⟩, ⟨0, by decide⟩⟩
  else
    let e0 : Int := max (e + (bitLength m : Int) - 53) (-1074)
    let q0 : Nat := if e0 ≤ e then m * 2 ^ (e - e0).toNat else roundHalfEven m (e0 - e).toNat
    let q : Nat := if q0 = 9007199254740992 then 4503599627370496 else q0
    let e1 : Int := if q0 = 9007199254740992 then e0 + 1 else e0
    if q < 4503599627370496 then ⟨sign, ⟨0, by decide⟩, Fin.ofNat q⟩
    else if e1 + 1075 ≥ 2047 then inf sign
    else ⟨sign, Fin.ofNat (e1 + 1075).toNat, Fin.ofNat (q - 4503599627370496)⟩

/-- Go's `x * y` on `float64` (IEEE 754 binary64 multiplication, round to nearest even). A
NaN result is the quiet NaN. -/
def mul (x y : Float64) : Float64 :=
  if x.isNaN || y.isNaN then nan
  else if x.isInf || y.isInf then
    if x.isZero || y.isZero then nan else inf (xor x.sign y.sign)
  else
    ofScaled (xor x.sign y.sign) (x.significand * y.significand) (x.exponent2 + y.exponent2)

/-- Go's conversion `int64(x)` of a `float64`: the fraction is discarded. For a NaN, an
infinity or a value outside the range of `int64` the Go specification leaves the result to
the implementation; the value is the one of amd64, `-2^63`. -/
def toInt64 (x : Float64) : Int :=
  if x.isNaN || x.isInf then -9223372036854775808
  else
    let t := truncScaled x.sign x.significand x.exponent2
    if t < -9223372036854775808 ∨ t > 9223372036854775807 then -9223372036854775808 else t

/-- The value `1e18`, that is `10^18 = 1.7347234759768071 * 2^59`. -/
def tenPow18 : Float64 := ⟨false, ⟨1082, by decide⟩, ⟨3308900372629504, by decide⟩⟩

/-- The `float64` nearest to `10.999`. -/
def lit10_999 : Float64 := ⟨false, ⟨1026, by decide⟩, ⟨1688286910310515, by decide⟩⟩

/-- The `float64` nearest to `0.29`. -/
def lit0_29 : Float64 := ⟨false, ⟨1021, by decide⟩, ⟨720575940379279, by decide⟩⟩

/-- The value `1.5`. -/
def lit1_5 : Float64 := ⟨false, ⟨1023, by decide⟩, ⟨2251799813685248, by decide⟩⟩

/-- The `float64` nearest to `1.1`. -/
def lit1_1 : Float64 := ⟨false, ⟨1023, by decide⟩, ⟨450359962737050, by decide⟩⟩

/-- The `float64` nearest to `0.000000000000000001`. -/
def lit1em18 : Float64 := ⟨false, ⟨963, by decide⟩, ⟨688697231164332, by decide⟩⟩

end Float64

/-! ## `math/big` floats of precision 53 -/

/-- Value of a `*big.Float`: `mant * 2 ^ exp`, negated when `neg` is set, or an infinity.
The exponent of a `big.Float` is an `int32`; it is unbounded here, which no product of two
`float64` values can tell apart. -/
inductive Big.Float where
  | finite (neg : Bool) (mant : Nat) (exp : Int)
  | inf (neg : Bool)
deriving DecidableEq

/-- Go `big.NewFloat(x)`: the exact value of `x`, with precision 53; it panics (`none`) on a
NaN. -/
def Big.NewFloat (x : Float64) : Option Big.Float :=
  if x.isNaN then none
  else if x.isInf then some (.inf x.sign)
  else some (.finite x.sign x.significand x.exponent2)

/-- Rounding of `mant * 2 ^ exp` to 53 significant bits, to nearest, ties to even (the
rounding mode `ToNearestEven` of a `big.Float`). -/
def Big.round53 (mant : Nat) (exp : Int) : Nat × Int :=
  if bitLength mant ≤ 53 then (mant, exp)
  else (roundHalfEven mant (bitLength mant - 53), exp + ((bitLength mant - 53 : Nat) : Int))

/-- Go `z.Mul(x, y)` for a `z` of precision 53: the product rounded to 53 bits; it panics
(`none`) when one operand is zero and the other an infinity. -/
def Big.Float.Mul (x y : Big.Float) : Option Big.Float :=
  match x, y with
  | .finite s1 m1 e1, .finite s2 m2 e2 =>
    some (.finite (xor s1 s2) (Big.round53 (m1 * m2) (e1 + e2)).1
      (Big.round53 (m1 * m2) (e1 + e2)).2)
  | .inf s1, .inf s2 => some (.inf (xor s1 s2))
  | .inf s1, .finite s2 m2 _ => if m2 = 0 then none else some (.inf (xor s1 s2))
  | .finite s1 m1 _, .inf s2 => if m1 = 0 then none else some (.inf (xor s1 s2))

/-- Go `x.Int(z)`: the value of `z` after the call, for the value `z` before it. The
truncation of `x` towards zero is stored in `z`; on an infinity `z` is left as it was. -/
def Big.Float.Int (x : Big.Float) (z : Int) : Int :=
  match x with
  | .finite neg mant exp => truncScaled neg mant exp
  | .inf _ => z

/-- Go `(*big.Int).Uint64()`: the low 64 bits of the absolute value. -/
def Big.Int.Uint64 (x : Int) : Nat := x.natAbs % 18446744073709551616

/-- Go `(*big.Int).String()`: the decimal text of the integer. -/
def Big.Int.String (x : Int) : String := toString x

/-! ## `internal/infrastructure/payment/credit_card_processor.go`: charge and refund -/

namespace Internal.Infrastructure.Payment

open PaymentService.Domain

/-- Go `stripe.Token`, as far as the processor reads it. -/
structure Token where
  ID : String
deriving DecidableEq

/-- Go `stripe.Charge`, as far as the processor reads it. -/
structure Charge where
  ID : String
  Paid : Bool
deriving DecidableEq

/-- Go `stripe.TokenParams` with its `stripe.CardParams`. -/
structure TokenParams where
  Number : String
  ExpMonth : String
  ExpYear : String
  CVC : String
  Name : String
deriving DecidableEq

/-- Go `stripe.ChargeParams`; `Amount` is an `int64`, `Metadata` lists the entries of the map
in source order. -/
structure ChargeParams where
  Amount : Int
  Currency : String
  Source : String
  Description : String
  Metadata : List (String × String)
deriving DecidableEq

/-- Go `stripe.RefundParams`; `Metadata` lists the entries of the map in source order. -/
structure RefundParams where
  Charge : String
  Metadata : List (String × String)
deriving DecidableEq

/-- A request sent to the card gateway. -/
inductive Request where
  | TokensNew (params : TokenParams)
  | ChargeNew (params : ChargeParams)
  | RefundNew (params : RefundParams)
deriving DecidableEq

/-- The card gateway: its answer to each request (`stripe.Tokens.New`, `charge.New`,
`refund.New`). -/
structure Gateway where
  TokensNew : TokenParams → Except StripeError Token
  ChargeNew : ChargeParams → Except StripeError Charge
  RefundNew : RefundParams → Except StripeError Unit

/-- State after a call of the processor: the payment behind the pointer, the returned
`error` (`none` is `nil`) and the requests sent to the gateway, in order. -/
structure Outcome where
  payment : PaymentService.Domain.Payment
  err : Option Error
  sent : List Request

/-- The parameters built by `createStripeToken`. -/
def tokenParams (cardInfo : CreditCardInfo) : TokenParams :=
  { Number := cardInfo.CardNumber
    ExpMonth := cardInfo.ExpiryMonth
    ExpYear := cardInfo.ExpiryYear
    CVC := cardInfo.CVV
    Name := cardInfo.CardholderName }

/-- Method `createStripeToken`: the answer of the gateway to the token request. -/
def createStripeToken (gw : Gateway) (cardInfo : CreditCardInfo) : Except StripeError Token :=
  gw.TokensNew (tokenParams cardInfo)

/-- The charge parameters built by `ProcessPayment` for the token `token`. -/
def chargeParams (payment : PaymentService.Domain.Payment) (token : Token) : ChargeParams :=
  { Amount := (Float64.mul payment.Amount Float64.hundred).toInt64
    Currency := payment.Currency
    Source := token.ID
    Description := "Payment for order " ++ payment.OrderID
    Metadata := [("order_id", payment.OrderID), ("payment_id", payment.ID),
      ("customer_id", payment.UserID)] }

/-- Method `CreditCardProcessor.ProcessPayment`; `now1` and `now2` are the clock readings of
`ValidateCard`. -/
def ProcessPayment (gw : Gateway) (payment : PaymentService.Domain.Payment)
    (cardInfo : CreditCardInfo) (now1 now2 : Clock) : Outcome :=
  match ValidateCard cardInfo now1 now2 with
  | some err => ⟨payment, some err, []⟩
  | none =>
    match createStripeToken gw cardInfo with
    | .error err =>
      ⟨payment, some (.Errorf "failed to create stripe token: %w" err),
        [.TokensNew (tokenParams cardInfo)]⟩
    | .ok token =>
      match gw.ChargeNew (chargeParams payment token) with
      | .error err =>
        ⟨payment, some (.Errorf "failed to create charge: %w" err),
          [.TokensNew (tokenParams cardInfo), .ChargeNew (chargeParams payment token)]⟩
      | .ok ch =>
        if !ch.Paid then
          ⟨payment, some .ErrPaymentFailed,
            [.TokensNew (tokenParams cardInfo), .ChargeNew (chargeParams payment token)]⟩
        else
          ⟨{ payment with TransactionID := ch.ID }, none,
            [.TokensNew (tokenParams cardInfo), .ChargeNew (chargeParams payment token)]⟩

/-- The refund parameters built by `RefundPayment`. -/
def refundParams (payment : PaymentService.Domain.Payment) : RefundParams :=
  { Charge := payment.TransactionID
    Metadata := [("order_id", payment.OrderID), ("payment_id", payment.ID),
      ("customer_id", payment.UserID)] }

/-- Method `CreditCardProcessor.RefundPayment`. -/
def RefundPayment (gw : Gateway) (payment : PaymentService.Domain.Payment) : Outcome :=
  if payment.TransactionID = "" then
    ⟨payment, some (.New "no transaction ID found"), []⟩
  else
    match gw.RefundNew (refundParams payment) with
    | .error err =>
      ⟨payment, some (.Errorf "failed to create refund: %w" err),
        [.RefundNew (refundParams payment)]⟩
    | .ok _ => ⟨payment, none, [.RefundNew (refundParams payment)]⟩

/-! ### The charge amount as the specification words it -/

/-- The number `m * 2 ^ e` rounded to the nearest integer, halves away from zero, negated
when `neg` is set. -/
def roundScaled (neg : Bool) (m : Nat) (e : Int) : Int :=
  let a : Nat :=
    if 0 ≤ e then m * 2 ^ e.toNat else (2 * m + 2 ^ (-e).toNat) / (2 * 2 ^ (-e).toNat)
  if neg then -(a : Int) else (a : Int)

/-- The amount times 100 rounded to the nearest integer, `round(amount * 100)`, computed on
the exact value of a finite `float64`. -/
def roundedMinorUnits (amount : Float64) : Int :=
  roundScaled amount.sign (amount.significand * 100) amount.exponent2

/-- A gateway that issues the token `tok_1`, answers every charge with the paid charge
`ch_1` and accepts every refund. -/
def sampleGateway : Gateway :=
  { TokensNew := fun _ => .ok ⟨"tok_1"⟩
    ChargeNew := fun _ => .ok ⟨"ch_1", true⟩
    RefundNew := fun _ => .ok () }

end Internal.Infrastructure.Payment

/-! ## `github.com/ethereum/go-ethereum/common`: the address check -/

namespace Common

/-- Go `has0xPrefix`: the text begins with `0x` or `0X`. -/
def has0xPrefix (str : List Char) : Bool :=
  match str with
  | c0 :: c1 :: _ => decide (c0 = '0') && (decide (c1 = 'x') || decide (c1 = 'X'))
  | _ => false

/-- Go `isHexCharacter`: a digit, or a letter from `a` to `f` in either case. -/
def isHexCharacter (c : Char) : Bool :=
  (decide ('0' ≤ c) && decide (c ≤ '9')) || (decide ('a' ≤ c) && decide (c ≤ 'f')) ||
    (decide ('A' ≤ c) && decide (c ≤ 'F'))

/-- Go `isHex`: an even number of characters, each a hex character. -/
def isHex (str : List Char) : Bool :=
  if str.length % 2 ≠ 0 then false else str.all isHexCharacter

/-- Go `common.IsHexAddress`: 40 hex characters after an optional `0x` or `0X`. -/
def IsHexAddress (s : String) : Bool :=
  let str := if has0xPrefix s.toList then s.toList.drop 2 else s.toList
  decide (str.length = 40) && isHex str

/-- Go `common.Address`, 20 bytes, given by the text that its method `Hex()` returns (the
mixed-case checksum form of the bytes). -/
structure Address where
  Hex : String
deriving DecidableEq

end Common

/-! ## `internal/infrastructure/blockchain/metamask_processor.go` -/

namespace Internal.Infrastructure.Blockchain

open PaymentService.Domain

/-- An error returned by the client of the chain node: the sentinel `ethereum.NotFound` or
any other error. -/
inductive ClientError where
  | NotFound
  | Other (msg : String)
deriving DecidableEq, Repr

/-- Go `error` values returned by the processor: the package-level sentinels, the anonymous
value built by `errors.New`, and an error of the client returned as it is. -/
inductive Error where
  | ErrInvalidWalletAddress
  | ErrInvalidTransaction
  | ErrTransactionFailed
  | New (msg : String)
  | Client (err : ClientError)
deriving DecidableEq, Repr

/-- Go `types.Receipt`, as far as the processor reads it: `Status` is a `uint64` and
`BlockNumber` the value of a non-nil `*big.Int`. -/
structure Receipt where
  Status : Nat
  BlockNumber : Int
deriving DecidableEq

/-- Go `types.ReceiptStatusSuccessful`. -/
def ReceiptStatusSuccessful : Nat := 1

/-- The chain node seen through `ethclient.Client`: its answer to the receipt query for the
hash parsed from the given text, and its answer to the block height query (a `uint64`). -/
structure Client where
  TransactionReceipt : String → Except ClientError Receipt
  BlockNumber : Except ClientError Nat

structure MetaMaskProcessor where
  client : Client
  contractAddr : Common.Address
  contractABI : String
  minConfirmations : Nat

/-- Subtraction of two `uint64` values, modulo `2^64`. -/
def uint64Sub (a b : Nat) : Nat :=
  (a % 18446744073709551616 + 18446744073709551616 - b % 18446744073709551616) %
    18446744073709551616

/-- The guard `len(transactionHash) != 66 || transactionHash[:2] != "0x"`; the length is in
bytes. -/
def malformedHash (transactionHash : String) : Bool :=
  decide (transactionHash.utf8ByteSize ≠ 66) ||
    decide (transactionHash.toList.take 2 ≠ ['0', 'x'])

namespace MetaMaskProcessor

/-- Method `convertToWei`; `none` is the panic of `big.NewFloat` on a NaN. -/
def convertToWei (_p : MetaMaskProcessor) (amount : Float64) : Option Int :=
  match Big.NewFloat amount with
  | none => none
  | some amountStr =>
    match Big.NewFloat Float64.tenPow18 with
    | none => none
    | some multiplier =>
      match amountStr.Mul multiplier with
      | none => none
      | some product => some (product.Int 0)

/-- Result of `InitiateTransaction`: the returned info, the returned error, or a panic. -/
inductive Initiated where
  | info (info : MetaMaskInfo)
  | error (err : Error)
  | panic
deriving DecidableEq

/-- Method `InitiateTransaction`: the payment behind the pointer after the call, and the
result. -/
def InitiateTransaction (p : MetaMaskProcessor) (payment : PaymentService.Domain.Payment)
    (walletAddress : String) : PaymentService.Domain.Payment × Initiated :=
  if !Common.IsHexAddress walletAddress then
    (payment, .error .ErrInvalidWalletAddress)
  else
    match p.convertToWei payment.Amount with
    | none => (payment, .panic)
    | some amountWei =>
      (payment, .info
        { WalletAddress := walletAddress
          TransactionHash := ""
          ContractAddress := p.contractAddr.Hex
          AmountWei := Big.Int.String amountWei })

/-- Method `VerifyTransaction`: the returned `error` (`none` is `nil`). -/
def VerifyTransaction (p : MetaMaskProcessor) (_payment : PaymentService.Domain.Payment)
    (transactionHash : String) : Option Error :=
  if malformedHash transactionHash then
    some .ErrInvalidTransaction
  else
    match p.client.TransactionReceipt transactionHash with
    | .error err =>
      if err = .NotFound then some .ErrInvalidTransaction else some (.Client err)
    | .ok receipt =>
      if receipt.Status ≠ ReceiptStatusSuccessful then
        some .ErrTransactionFailed
      else
        match p.client.BlockNumber with
        | .error err => some (.Client err)
        | .ok currentBlock =>
          if uint64Sub currentBlock (Big.Int.Uint64 receipt.BlockNumber) < p.minConfirmations then
            some (.New "insufficient confirmations")
          else
            none

/-- Method `GetTransactionStatus`: the returned status text and `error`. -/
def GetTransactionStatus (p : MetaMaskProcessor) (transactionHash : String) :
    String × Option Error :=
  if malformedHash transactionHash then
    ("", some .ErrInvalidTransaction)
  else
    match p.client.TransactionReceipt transactionHash with
    | .error err =>
      if err = .NotFound then ("PENDING", none) else ("", some (.Client err))
    | .ok receipt =>
      match p.client.BlockNumber with
      | .error err => ("", some (.Client err))
      | .ok currentBlock =>
        if receipt.Status ≠ ReceiptStatusSuccessful then
          ("FAILED", none)
        else if uint64Sub currentBlock (Big.Int.Uint64 receipt.BlockNumber) <
            p.minConfirmations then
          ("CONFIRMING", none)
        else
          ("CONFIRMED", none)

end MetaMaskProcessor

/-! ### The chain amount as the specification words it -/

/-- The amount multiplied by `10^18` and truncated to an integer, computed without rounding
on the exact value of a finite `float64`. -/
def exactWei (amount : Float64) : Int :=
  truncScaled amount.sign (amount.significand * 1000000000000000000) amount.exponent2

/-- A transaction hash of 66 characters, prefixed `0x`. -/
def sampleHash : String :=
  "0x1111111111111111111111111111111111111111111111111111111111111111"

/-- A wallet address: `0x` and 40 hex characters. -/
def sampleWallet : String := "0x52908400098527886E0F7030069857D2E4169EE7"

/-- A node that answers the receipt query with `receipt` and the height query with
`currentBlock`. -/
def nodeWith (receipt : Except ClientError Receipt) (currentBlock : Except ClientError Nat) :
    Client :=
  { TransactionReceipt := fun _ => receipt, BlockNumber := currentBlock }

/-- A processor on the given node with the given confirmation threshold. -/
def processorWith (client : Client) (minConfirmations : Nat) : MetaMaskProcessor :=
  { client := client
    contractAddr := ⟨"0xde709f2102306220921060314715629080e2fb77"⟩
    contractABI := ""
    minConfirmations := minConfirmations }

end Internal.Infrastructure.Blockchain

/-! ## `internal/handler/payment_handler.go` -/

namespace Internal.Handler

/-- A gRPC status code (`google.golang.org/grpc/codes`). -/
abbrev Code := Nat

/-- Go `codes.Unimplemented`. -/
def Unimplemented : Code := 12

/-- The error built by `status.Error(code, msg)`. -/
structure StatusError where
  code : Code
  msg : String
deriving DecidableEq

/-- Go `PaymentHandler`: it embeds `pb.UnimplementedPaymentServiceServer` and has no field
of its own; in particular it holds no card processor and no gateway. -/
structure PaymentHandler where
deriving DecidableEq

/-- What a call of the handler leaves: the returned `*pb.Payment` (`none` is `nil`), the
returned `error`, and the requests sent to the card gateway during the call. The generated
type `pb.Payment` is a parameter. -/
structure Reply (PbPayment : Type) where
  payment : Option PbPayment
  err : Option StatusError
  sent : List Internal.Infrastructure.Payment.Request

/-- Method `PaymentHandler.ProcessCreditCardPayment`; the generated request type
`pb.CreditCardPaymentRequest` and the type `pb.Payment` are parameters. -/
def PaymentHandler.ProcessCreditCardPayment {CreditCardPaymentRequest PbPayment : Type}
    (_h : PaymentHandler) (_req : CreditCardPaymentRequest) : Reply PbPayment :=
  { payment := none
    err := some ⟨Unimplemented, "method ProcessCreditCardPayment not implemented"⟩
    sent := [] }

end Internal.Handler

/-! ## The two `Payment` implementations side by side -/

namespace Refinement

/-- A string-status payment and a typed-status payment are related when they have the same
field values. -/
def Related (a : Internal.Domain.Payment) (b : PaymentService.Domain.Payment) : Prop :=
  a.ID = b.ID ∧ a.OrderID = b.OrderID ∧ a.UserID = b.UserID ∧ a.Amount = b.Amount ∧
    a.Currency = b.Currency ∧ a.Status = b.Status ∧ a.PaymentMethod = b.PaymentMethod ∧
    a.TransactionID = b.TransactionID ∧ a.ErrorMessage = b.ErrorMessage ∧
    a.CreatedAt = b.CreatedAt ∧ a.UpdatedAt = b.UpdatedAt

instance (a : Internal.Domain.Payment) (b : PaymentService.Domain.Payment) :
    Decidable (Related a b) := by
  unfold Related; infer_instance

/-- Two errors of the two domain packages are the same outcome when they are the sentinel of
the same name, or anonymous errors with the same message. -/
def SameError : Internal.Domain.Error → PaymentService.Domain.Error → Prop
  | .ErrInvalidPaymentID, .ErrInvalidPaymentID => True
  | .ErrInvalidOrderID, .ErrInvalidOrderID => True
  | .ErrInvalidUserID, .ErrInvalidUserID => True
  | .ErrInvalidAmount, .ErrInvalidAmount => True
  | .ErrInvalidCurrency, .ErrInvalidCurrency => True
  | .ErrInvalidPaymentMethod, .ErrInvalidPaymentMethod => True
  | .New m1, .New m2 => m1 = m2
  | _, _ => False

/-- Two returned `error` values are the same outcome: both nil, or the same error. -/
def SameOutcome : Option Internal.Domain.Error → Option PaymentService.Domain.Error → Prop
  | none, none => True
  | some e1, some e2 => SameError e1 e2
  | _, _ => False

/-- Two results of `NewPayment` are related: related payments, or the same error. -/
def RelatedResult : Except Internal.Domain.Error Internal.Domain.Payment →
    Except PaymentService.Domain.Error PaymentService.Domain.Payment → Prop
  | .ok a, .ok b => Related a b
  | .error e1, .error e2 => SameError e1 e2
  | _, _ => False

end Refinement

/-! ## The payment entity -/

namespace PaymentService.Domain

theorem isPending_eq_true_iff (p : Payment) :
    p.IsPending = true ↔
      (p.Status = PaymentStatusPending ∨ p.Status = PaymentStatusProcessing) := by
  simp [Payment.IsPending]

theorem isPending_eq_false_iff (p : Payment) :
    p.IsPending = false ↔
      ¬ (p.Status = PaymentStatusPending ∨ p.Status = PaymentStatusProcessing) := by
  simp [Payment.IsPending]

theorem refund_of_completed (p : Payment) (now : Time)
    (h : p.Status = PaymentStatusCompleted) :
    p.Refund now = ({ p with Status := PaymentStatusRefunded, UpdatedAt := now }, none) := by
  simp [Payment.Refund, h]

theorem refund_of_not_completed (p : Payment) (now : Time)
    (h : p.Status ≠ PaymentStatusCompleted) :
    p.Refund now = (p, some (.New "only completed payments can be refunded")) := by
  simp [Payment.Refund, h]

end PaymentService.Domain

namespace Internal.Domain

theorem string_refund_of_completed (p : Payment) (now : Time)
    (h : p.Status = string PaymentStatusCompleted) :
    p.Refund now =
      ({ p with Status := string PaymentStatusRefunded, UpdatedAt := now }, none) := by
  simp [Payment.Refund, h]

theorem string_refund_of_not_completed (p : Payment) (now : Time)
    (h : p.Status ≠ string PaymentStatusCompleted) :
    p.Refund now = (p, some (.New "only completed payments can be refunded")) := by
  simp [Payment.Refund, h]

end Internal.Domain

/-- Claim C1: in both implementations of `Payment`, `Refund` returns an error exactly when
the status is not COMPLETED; on an error the payment after the call is the payment before
it, and on success it is the payment before the call with status REFUNDED and the update
timestamp set to the clock reading, every other field as before. -/
theorem C1_Refund_error_iff_not_completed :
    (∀ (p : PaymentService.Domain.Payment) (now : Time),
      ((p.Refund now).2 ≠ none ↔ p.Status ≠ PaymentService.Domain.PaymentStatusCompleted) ∧
      ((p.Refund now).2 ≠ none → (p.Refund now).1 = p) ∧
      ((p.Refund now).2 = none →
        (p.Refund now).1 =
          { p with Status := PaymentService.Domain.PaymentStatusRefunded, UpdatedAt := now })) ∧
    (∀ (p : Internal.Domain.Payment) (now : Time),
      ((p.Refund now).2 ≠ none ↔ p.Status ≠ Internal.Domain.PaymentStatusCompleted) ∧
      ((p.Refund now).2 ≠ none → (p.Refund now).1 = p) ∧
      ((p.Refund now).2 = none →
        (p.Refund now).1 =
          { p with Status := Internal.Domain.PaymentStatusRefunded, UpdatedAt := now })) := by
  constructor
  · intro p now
    by_cases h : p.Status = PaymentService.Domain.PaymentStatusCompleted
    · rw [PaymentService.Domain.refund_of_completed p now h]
      simp [h]
    · rw [PaymentService.Domain.refund_of_not_completed p now h]
      simp [h]
  · intro p now
    by_cases h : p.Status = Internal.Domain.PaymentStatusCompleted
    · rw [Internal.Domain.string_refund_of_completed p now h]
      simp [h, Internal.Domain.string]
    · rw [Internal.Domain.string_refund_of_not_completed p now h]
      simp [h]

/-- Claim C2: when the status is PENDING or PROCESSING, `MarkAsCompleted r` yields the
payment with status COMPLETED, transaction ID `r` and the update timestamp set; in every
other status, FAILED and COMPLETED among them, the payment after the call is the payment
before it. -/
theorem C2_MarkAsCompleted_guard (p : PaymentService.Domain.Payment) (r : String)
    (now : Time) :
    ((p.Status = PaymentService.Domain.PaymentStatusPending ∨
        p.Status = PaymentService.Domain.PaymentStatusProcessing) →
      p.MarkAsCompleted r now =
        { p with
          Status := PaymentService.Domain.PaymentStatusCompleted
          TransactionID := r
          UpdatedAt := now }) ∧
    (¬ (p.Status = PaymentService.Domain.PaymentStatusPending ∨
        p.Status = PaymentService.Domain.PaymentStatusProcessing) →
      p.MarkAsCompleted r now = p) ∧
    (p.Status = PaymentService.Domain.PaymentStatusFailed → p.MarkAsCompleted r now = p) ∧
    (p.Status = PaymentService.Domain.PaymentStatusCompleted →
      p.MarkAsCompleted r now = p) := by
  have hopen : ¬ (p.Status = PaymentService.Domain.PaymentStatusPending ∨
      p.Status = PaymentService.Domain.PaymentStatusProcessing) →
      p.MarkAsCompleted r now = p := by
    intro h
    have hp := (PaymentService.Domain.isPending_eq_false_iff p).mpr h
    simp [PaymentService.Domain.Payment.MarkAsCompleted, hp]
  refine ⟨?_, hopen, ?_, ?_⟩
  · intro h
    have hp := (PaymentService.Domain.isPending_eq_true_iff p).mpr h
    simp [PaymentService.Domain.Payment.MarkAsCompleted, hp]
  · intro h
    apply hopen
    rw [h]
    decide
  · intro h
    apply hopen
    rw [h]
    decide

/-- Claim C3 as stated fails: `UpdateStatus` writes its argument into the status whatever
the current status is, so a caller moves a REFUNDED payment back to PENDING, which is
neither the old status, nor an edge of the lifecycle graph, nor the failure override. -/
theorem C3_UpdateStatus_sets_arbitrary_status :
    ¬ (∀ (c : PaymentService.Domain.Call) (p : PaymentService.Domain.Payment) (now : Time),
        PaymentService.Domain.LegalMove c p.Status (c.run p now).Status) := by
  intro h
  have h1 := h (.UpdateStatus PaymentService.Domain.PaymentStatusPending)
    (PaymentService.Domain.sample PaymentService.Domain.PaymentStatusRefunded "ch_1") 2000
  revert h1
  decide

/-- Claim C3, amended: for every call of `SetTransactionID`, `SetError`, `MarkAsProcessing`,
`MarkAsCompleted`, `Cancel` or `Refund`, every starting status and every argument, the
status after the call is the status before it, or is reached along an edge of the lifecycle
graph, or is FAILED set by the fail transition `SetError`; `UpdateStatus` sets the status to
its argument. -/
theorem C3_status_moves_along_edges (c : PaymentService.Domain.Call)
    (p : PaymentService.Domain.Payment) (now : Time)
    (hc : c.isUpdateStatus = false) :
    PaymentService.Domain.LegalMove c p.Status (c.run p now).Status ∧
    ∀ s : PaymentService.Domain.PaymentStatus, (p.UpdateStatus s now).Status = s := by
  refine ⟨?_, fun s => rfl⟩
  cases c with
  | UpdateStatus s => simp [PaymentService.Domain.Call.isUpdateStatus] at hc
  | SetTransactionID txID => exact Or.inl rfl
  | SetError err => exact Or.inr (Or.inr ⟨rfl, rfl⟩)
  | MarkAsProcessing =>
    by_cases h : p.Status = PaymentService.Domain.PaymentStatusPending
    · right; left; left
      exact ⟨h, by simp [PaymentService.Domain.Call.run,
        PaymentService.Domain.Payment.MarkAsProcessing, h]⟩
    · left
      simp [PaymentService.Domain.Call.run, PaymentService.Domain.Payment.MarkAsProcessing, h]
  | MarkAsCompleted r =>
    by_cases h : p.Status = PaymentService.Domain.PaymentStatusPending ∨
        p.Status = PaymentService.Domain.PaymentStatusProcessing
    · have hp := (PaymentService.Domain.isPending_eq_true_iff p).mpr h
      right; left; right; left
      exact ⟨h, Or.inl (by simp [PaymentService.Domain.Call.run,
        PaymentService.Domain.Payment.MarkAsCompleted, hp])⟩
    · have hp := (PaymentService.Domain.isPending_eq_false_iff p).mpr h
      left
      simp [PaymentService.Domain.Call.run, PaymentService.Domain.Payment.MarkAsCompleted, hp]
  | Cancel =>
    by_cases h : p.Status = PaymentService.Domain.PaymentStatusPending ∨
        p.Status = PaymentService.Domain.PaymentStatusProcessing
    · have hp := (PaymentService.Domain.isPending_eq_true_iff p).mpr h
      right; left; right; left
      exact ⟨h, Or.inr (Or.inr (by simp [PaymentService.Domain.Call.run,
        PaymentService.Domain.Payment.Cancel, hp]))⟩
    · have hp := (PaymentService.Domain.isPending_eq_false_iff p).mpr h
      left
      simp [PaymentService.Domain.Call.run, PaymentService.Domain.Payment.Cancel, hp]
  | Refund =>
    by_cases h : p.Status = PaymentService.Domain.PaymentStatusCompleted
    · right; left; right; right
      exact ⟨h, by simp [PaymentService.Domain.Call.run,
        PaymentService.Domain.refund_of_completed p now h]⟩
    · left
      simp [PaymentService.Domain.Call.run,
        PaymentService.Domain.refund_of_not_completed p now h]

/-- Claim C3, amended, at a concrete input: cancelling a PROCESSING payment is a legal
move. -/
theorem C3_status_moves_along_edges_witness :
    PaymentService.Domain.LegalMove PaymentService.Domain.Call.Cancel
      (PaymentService.Domain.sample PaymentService.Domain.PaymentStatusProcessing "").Status
      (PaymentService.Domain.Call.Cancel.run
        (PaymentService.Domain.sample PaymentService.Domain.PaymentStatusProcessing "")
        2000).Status ∧
    ∀ s : PaymentService.Domain.PaymentStatus,
      ((PaymentService.Domain.sample PaymentService.Domain.PaymentStatusProcessing
        "").UpdateStatus s 2000).Status = s :=
  C3_status_moves_along_edges PaymentService.Domain.Call.Cancel
    (PaymentService.Domain.sample PaymentService.Domain.PaymentStatusProcessing "") 2000
    (by decide)

/-- Claim C4: in both implementations of `Payment`, for every payment in any status and
every reason `s`, the payment after `SetError s` has status FAILED and error message `s`;
its ID, order ID, user ID, amount, currency, payment method, transaction ID and creation
timestamp are those before the call, and its update timestamp is the clock reading. -/
theorem C4_SetError_sets_failed :
    (∀ (p : PaymentService.Domain.Payment) (s : String) (now : Time),
      (p.SetError s now).Status = PaymentService.Domain.PaymentStatusFailed ∧
      (p.SetError s now).ErrorMessage = s ∧
      (p.SetError s now).ID = p.ID ∧
      (p.SetError s now).OrderID = p.OrderID ∧
      (p.SetError s now).UserID = p.UserID ∧
      (p.SetError s now).Amount = p.Amount ∧
      (p.SetError s now).Currency = p.Currency ∧
      (p.SetError s now).PaymentMethod = p.PaymentMethod ∧
      (p.SetError s now).TransactionID = p.TransactionID ∧
      (p.SetError s now).CreatedAt = p.CreatedAt ∧
      (p.SetError s now).UpdatedAt = now) ∧
    (∀ (p : Internal.Domain.Payment) (s : String) (now : Time),
      (p.SetError s now).Status = Internal.Domain.PaymentStatusFailed ∧
      (p.SetError s now).ErrorMessage = s ∧
      (p.SetError s now).ID = p.ID ∧
      (p.SetError s now).OrderID = p.OrderID ∧
      (p.SetError s now).UserID = p.UserID ∧
      (p.SetError s now).Amount = p.Amount ∧
      (p.SetError s now).Currency = p.Currency ∧
      (p.SetError s now).PaymentMethod = p.PaymentMethod ∧
      (p.SetError s now).TransactionID = p.TransactionID ∧
      (p.SetError s now).CreatedAt = p.CreatedAt ∧
      (p.SetError s now).UpdatedAt = now) := by
  constructor
  · intro p s now
    exact ⟨rfl, rfl, rfl, rfl, rfl, rfl, rfl, rfl, rfl, rfl, rfl⟩
  · intro p s now
    exact ⟨rfl, rfl, rfl, rfl, rfl, rfl, rfl, rfl, rfl, rfl, rfl⟩

namespace PaymentService.Domain

/-- On every amount that is not NaN, Go's `amount <= 0` is the negation of `amount > 0`. -/
theorem leZero_eq_not_gtZero (x : Float64) (h : x.isNaN = false) :
    x.leZero = !x.gtZero := by
  simp only [Float64.leZero, Float64.gtZero, h]
  cases x.isZero <;> cases x.sign <;> rfl

/-- Constructor `NewPayment` on an amount that is not NaN: a payment is returned exactly when
the order ID and user ID are non-empty, the amount is above 0, the currency is non-empty and the
method is CREDIT_CARD or METAMASK; it is PENDING, carries the arguments, and has empty ID,
transaction ID and error message. Otherwise the error is that of the first violated check in
the order order ID, user ID, amount, currency, method. -/
theorem NewPayment_of_not_nan (orderID userID : String) (amount : Float64)
    (currency : String) (method : PaymentMethod) (now1 now2 : Time)
    (hnan : amount.isNaN = false) :
    ((∃ p, NewPayment orderID userID amount currency method now1 now2 = .ok p) ↔
      (orderID ≠ "" ∧ userID ≠ "" ∧ amount.gtZero = true ∧ currency ≠ "" ∧
        (method = PaymentMethodCreditCard ∨ method = PaymentMethodMetaMask))) ∧
    (∀ p, NewPayment orderID userID amount currency method now1 now2 = .ok p →
      p = { ID := "", OrderID := orderID, UserID := userID, Amount := amount,
            Currency := currency, Status := PaymentStatusPending, PaymentMethod := method,
            TransactionID := "", ErrorMessage := "", CreatedAt := now1,
            UpdatedAt := now2 }) ∧
    (orderID = "" →
      NewPayment orderID userID amount currency method now1 now2 =
        .error .ErrInvalidOrderID) ∧
    (orderID ≠ "" → userID = "" →
      NewPayment orderID userID amount currency method now1 now2 =
        .error .ErrInvalidUserID) ∧
    (orderID ≠ "" → userID ≠ "" → amount.gtZero = false →
      NewPayment orderID userID amount currency method now1 now2 =
        .error .ErrInvalidAmount) ∧
    (orderID ≠ "" → userID ≠ "" → amount.gtZero = true → currency = "" →
      NewPayment orderID userID amount currency method now1 now2 =
        .error .ErrInvalidCurrency) ∧
    (orderID ≠ "" → userID ≠ "" → amount.gtZero = true → currency ≠ "" →
      ¬ (method = PaymentMethodCreditCard ∨ method = PaymentMethodMetaMask) →
      NewPayment orderID userID amount currency method now1 now2 =
        .error .ErrInvalidPaymentMethod) := by
  have hle := leZero_eq_not_gtZero amount hnan
  unfold NewPayment
  rw [hle]
  by_cases h1 : orderID = ""
  · simp [h1]
  by_cases h2 : userID = ""
  · simp [h1, h2]
  cases h3 : amount.gtZero
  · simp [h1, h2]
  by_cases h4 : currency = ""
  · simp [h1, h2, h4]
  by_cases h5 : method = PaymentMethodCreditCard
  · simp only [h1, h2, h4, h5]
    simp
    exact ⟨h1, h2, h4⟩
  by_cases h6 : method = PaymentMethodMetaMask
  · simp only [h1, h2, h4, h6]
    simp
    exact ⟨h1, h2, h4⟩
  · simp [h1, h2, h4, h5, h6]

end PaymentService.Domain

/-- Claim C5, the code at the failing input: the amount NaN is not above 0, yet `NewPayment`
with non-empty IDs, a non-empty currency and the card method returns a PENDING payment
carrying it, where the claim has no payment constructed. -/
theorem C5_NewPayment_accepts_NaN :
    Float64.nan.isNaN = true ∧ Float64.nan.gtZero = false ∧ Float64.nan.leZero = false ∧
    PaymentService.Domain.NewPayment "order-1" "user-1" Float64.nan "USD"
        PaymentService.Domain.PaymentMethodCreditCard 1000 1001 =
      .ok { ID := "", OrderID := "order-1", UserID := "user-1", Amount := Float64.nan,
            Currency := "USD", Status := PaymentService.Domain.PaymentStatusPending,
            PaymentMethod := PaymentService.Domain.PaymentMethodCreditCard,
            TransactionID := "", ErrorMessage := "", CreatedAt := 1000,
            UpdatedAt := 1001 } := by
  refine ⟨by decide, by decide, by decide, ?_⟩
  rfl

/-- Claim C6: for every payment in status COMPLETED, a first `Refund` returns no error and
yields the payment with status REFUNDED and the update timestamp set, nothing else changed;
a second `Refund` on that result returns an error and leaves it as the first call produced
it. -/
theorem C6_Refund_succeeds_once (p : PaymentService.Domain.Payment) (now1 now2 : Time)
    (h : p.Status = PaymentService.Domain.PaymentStatusCompleted) :
    (p.Refund now1).2 = none ∧
    (p.Refund now1).1 =
      { p with Status := PaymentService.Domain.PaymentStatusRefunded, UpdatedAt := now1 } ∧
    (((p.Refund now1).1).Refund now2).2 ≠ none ∧
    (((p.Refund now1).1).Refund now2).1 = (p.Refund now1).1 := by
  rw [PaymentService.Domain.refund_of_completed p now1 h]
  have h2 : (PaymentService.Domain.Payment.mk p.ID p.OrderID p.UserID p.Amount p.Currency
      PaymentService.Domain.PaymentStatusRefunded p.PaymentMethod p.TransactionID
      p.ErrorMessage p.CreatedAt now1).Status ≠
      PaymentService.Domain.PaymentStatusCompleted := by
    show PaymentService.Domain.PaymentStatusRefunded ≠
      PaymentService.Domain.PaymentStatusCompleted
    decide
  rw [PaymentService.Domain.refund_of_not_completed _ now2 h2]
  simp

/-- Claim C6 at a concrete input: the sample payment, COMPLETED with charge `ch_1`. -/
theorem C6_Refund_succeeds_once_witness :
    ((PaymentService.Domain.sample PaymentService.Domain.PaymentStatusCompleted
      "ch_1").Refund 2000).2 = none ∧
    ((PaymentService.Domain.sample PaymentService.Domain.PaymentStatusCompleted
      "ch_1").Refund 2000).1 =
      { (PaymentService.Domain.sample PaymentService.Domain.PaymentStatusCompleted "ch_1") with
        Status := PaymentService.Domain.PaymentStatusRefunded, UpdatedAt := 2000 } ∧
    ((((PaymentService.Domain.sample PaymentService.Domain.PaymentStatusCompleted
      "ch_1").Refund 2000).1).Refund 3000).2 ≠ none ∧
    ((((PaymentService.Domain.sample PaymentService.Domain.PaymentStatusCompleted
      "ch_1").Refund 2000).1).Refund 3000).1 =
      ((PaymentService.Domain.sample PaymentService.Domain.PaymentStatusCompleted
        "ch_1").Refund 2000).1 :=
  C6_Refund_succeeds_once
    (PaymentService.Domain.sample PaymentService.Domain.PaymentStatusCompleted "ch_1")
    2000 3000 rfl

/-- Claim C7: `MarkAsProcessing` and `Cancel` return no error (they have no result besides
the payment). `MarkAsProcessing` moves a PENDING payment to PROCESSING, setting the update
timestamp, and leaves a payment in any other status as it was; so it changes the status to
PROCESSING exactly when the status is PENDING. `Cancel` moves a PENDING or PROCESSING
payment to CANCELLED, setting the update timestamp, and leaves a payment in any other
status as it was; so it changes the status to CANCELLED exactly when the status is PENDING
or PROCESSING. -/
theorem C7_guarded_transitions (p : PaymentService.Domain.Payment) (now : Time) :
    (p.Status = PaymentService.Domain.PaymentStatusPending →
      p.MarkAsProcessing now =
        { p with Status := PaymentService.Domain.PaymentStatusProcessing, UpdatedAt := now }) ∧
    (p.Status ≠ PaymentService.Domain.PaymentStatusPending → p.MarkAsProcessing now = p) ∧
    (((p.MarkAsProcessing now).Status = PaymentService.Domain.PaymentStatusProcessing ∧
        p.Status ≠ PaymentService.Domain.PaymentStatusProcessing) ↔
      p.Status = PaymentService.Domain.PaymentStatusPending) ∧
    ((p.Status = PaymentService.Domain.PaymentStatusPending ∨
        p.Status = PaymentService.Domain.PaymentStatusProcessing) →
      p.Cancel now =
        { p with Status := PaymentService.Domain.PaymentStatusCancelled, UpdatedAt := now }) ∧
    (¬ (p.Status = PaymentService.Domain.PaymentStatusPending ∨
        p.Status = PaymentService.Domain.PaymentStatusProcessing) → p.Cancel now = p) ∧
    (((p.Cancel now).Status = PaymentService.Domain.PaymentStatusCancelled ∧
        p.Status ≠ PaymentService.Domain.PaymentStatusCancelled) ↔
      (p.Status = PaymentService.Domain.PaymentStatusPending ∨
        p.Status = PaymentService.Domain.PaymentStatusProcessing)) := by
  have hPP : PaymentService.Domain.PaymentStatusPending ≠
      PaymentService.Domain.PaymentStatusProcessing := by decide
  have hPC : PaymentService.Domain.PaymentStatusPending ≠
      PaymentService.Domain.PaymentStatusCancelled := by decide
  have hRC : PaymentService.Domain.PaymentStatusProcessing ≠
      PaymentService.Domain.PaymentStatusCancelled := by decide
  refine ⟨?_, ?_, ?_, ?_, ?_, ?_⟩
  · intro h
    simp [PaymentService.Domain.Payment.MarkAsProcessing, h]
  · intro h
    simp [PaymentService.Domain.Payment.MarkAsProcessing, h]
  · by_cases h : p.Status = PaymentService.Domain.PaymentStatusPending
    · simp [PaymentService.Domain.Payment.MarkAsProcessing, h, hPP]
    · simp only [PaymentService.Domain.Payment.MarkAsProcessing, h, if_false, iff_false]
      exact fun hc => hc.2 hc.1
  · intro h
    have hp := (PaymentService.Domain.isPending_eq_true_iff p).mpr h
    simp [PaymentService.Domain.Payment.Cancel, hp]
  · intro h
    have hp := (PaymentService.Domain.isPending_eq_false_iff p).mpr h
    simp [PaymentService.Domain.Payment.Cancel, hp]
  · by_cases h : p.Status = PaymentService.Domain.PaymentStatusPending ∨
        p.Status = PaymentService.Domain.PaymentStatusProcessing
    · have hp := (PaymentService.Domain.isPending_eq_true_iff p).mpr h
      simp only [PaymentService.Domain.Payment.Cancel, hp, if_true, true_and, h, iff_true]
      rcases h with h | h <;> rw [h]
      · exact hPC
      · exact hRC
    · have hp := (PaymentService.Domain.isPending_eq_false_iff p).mpr h
      simp only [PaymentService.Domain.Payment.Cancel, hp, h, iff_false]
      exact fun hc => hc.2 hc.1

/-! ## Card number validation -/

namespace Internal.Infrastructure.Payment

theorem isDigit_iff (c : Char) : isDigit c = true ↔ ('0' ≤ c ∧ c ≤ '9') := by
  simp [isDigit]

theorem isDigit_toNat (c : Char) (h : isDigit c = true) : 48 ≤ c.toNat ∧ c.toNat ≤ 57 := by
  rw [isDigit_iff] at h
  exact ⟨h.1, h.2⟩

/-- On an ASCII digit the byte subtraction `number[i] - '0'` is the value of the digit. -/
theorem byteDigit_eq_digitValue (c : Char) (h : isDigit c = true) :
    (c.toNat + 256 - ('0').toNat) % 256 = digitValue c := by
  have hc := isDigit_toNat c h
  have h0 : ('0').toNat = 48 := rfl
  rw [h0]
  unfold digitValue
  omega

theorem digitValue_le (c : Char) (h : isDigit c = true) : digitValue c ≤ 9 := by
  have hc := isDigit_toNat c h
  unfold digitValue
  omega

theorem digitValue_injOn (c d : Char) (hc : isDigit c = true) (hd : isDigit d = true)
    (h : digitValue c = digitValue d) : c = d := by
  have h1 := isDigit_toNat c hc
  have h2 := isDigit_toNat d hd
  unfold digitValue at h
  have h3 : c.toNat = d.toNat := by omega
  exact Char.ext (UInt32.ext h3)

theorem isSeparator_of_isDigit (c : Char) (h : isDigit c = true) : isSeparator c = false := by
  have hc := isDigit_toNat c h
  have key : ∀ x : Char, x.toNat < 48 → c ≠ x := by
    intro x hx hcx
    rw [hcx] at hc
    omega
  simp only [isSeparator, isWhitespace, Bool.or_eq_false_iff, decide_eq_false_iff_not]
  refine ⟨⟨⟨⟨⟨?_, ?_⟩, ?_⟩, ?_⟩, ?_⟩, ?_⟩ <;> exact key _ (by decide)

/-- The step of the loop at an index whose distance from the right end has the parity of
`isEven` is the contribution the specification gives to that position. -/
theorem luhnStep_eq_contribution (d j : Nat) (isEven : Bool)
    (hj : j % 2 = 1 ↔ isEven = true) : luhnStep d isEven = luhnContribution j d := by
  unfold luhnStep luhnContribution
  cases isEven
  · have : ¬ j % 2 = 1 := fun h => by simpa using hj.mp h
    simp [this]
  · have : j % 2 = 1 := hj.mpr rfl
    simp [this, Nat.mul_comm]

/-- Loop invariant: with `k` indices left, the final sum is the running sum plus the
contributions of the first `k` characters, read right to left from distance `j`. -/
theorem luhnLoop_eq (number : List Char) (k : Nat) (hk : k ≤ number.length) :
    ∀ (sum : Nat) (isEven : Bool) (j : Nat), (j % 2 = 1 ↔ isEven = true) →
      luhnLoop number k sum isEven =
        sum + ((((number.take k).reverse.map
          (fun c => (c.toNat + 256 - ('0').toNat) % 256)).enumFrom j).map
            (fun jd => luhnContribution jd.1 jd.2)).sum := by
  induction k with
  | zero => intro sum isEven j _; simp [luhnLoop]
  | succ k ih =>
    intro sum isEven j hj
    have hlt : k < number.length := hk
    have htake : number.take (k + 1) = number.take k ++ [number[k]] := by
      rw [List.take_succ, List.getElem?_eq_getElem hlt]
      rfl
    have hj2 : ((j + 1) % 2 = 1 ↔ (!isEven) = true) := by
      cases isEven
      · have : ¬ j % 2 = 1 := fun h => by simpa using hj.mp h
        simp
        omega
      · have : j % 2 = 1 := hj.mpr rfl
        simp
        omega
    rw [luhnLoop, ih (Nat.le_of_lt hlt) _ _ (j + 1) hj2, htake]
    simp only [List.reverse_append, List.reverse_cons, List.reverse_nil, List.nil_append,
      List.singleton_append, List.map_cons, List.enumFrom_cons, List.sum_cons]
    rw [luhnStep_eq_contribution _ j isEven hj]
    unfold digitAt
    rw [List.getD_eq_getElem number '0' hlt]
    omega

/-- On digits the loop computes the Luhn sum of the specification. -/
theorem luhnLoop_eq_luhnSum (number : List Char)
    (hd : ∀ c ∈ number, isDigit c = true) :
    luhnLoop number number.length 0 false = luhnSum (number.map digitValue) := by
  rw [luhnLoop_eq number number.length (Nat.le_refl _) 0 false 0 (by simp)]
  have hmap : number.reverse.map (fun c => (c.toNat + 256 - ('0').toNat) % 256) =
      number.reverse.map digitValue :=
    List.map_congr_left
      (fun c hc => byteDigit_eq_digitValue c (hd c (List.mem_reverse.mp hc)))
  simp only [List.take_length, Nat.zero_add, luhnSum, List.enum, ← List.map_reverse]
  rw [hmap]

end Internal.Infrastructure.Payment

namespace Internal.Infrastructure.Payment

theorem matchDigits_iff (t : List Char) :
    matchDigits t = true ↔ (t ≠ [] ∧ ∀ c ∈ t, isDigit c = true) := by
  cases t with
  | nil => simp [matchDigits]
  | cons a l => simp [matchDigits]

/-- The check on the characters of the number, in the words of the specification. -/
theorem isValidCardNumberChars_iff (s : List Char) :
    isValidCardNumberChars s = true ↔ LuhnValid s := by
  show (if !matchDigits (removeSeparators s) then false
      else if (removeSeparators s).length < 13 ∨ (removeSeparators s).length > 19 then false
      else luhnLoop (removeSeparators s) (removeSeparators s).length 0 false % 10 == 0) = true ↔
    ((∀ c ∈ removeSeparators s, '0' ≤ c ∧ c ≤ '9') ∧
      13 ≤ (removeSeparators s).length ∧
      (removeSeparators s).length ≤ 19 ∧
      luhnSum ((removeSeparators s).map digitValue) % 10 = 0)
  generalize removeSeparators s = t
  by_cases hd : ∀ c ∈ t, isDigit c = true
  · have hd2 : ∀ c ∈ t, '0' ≤ c ∧ c ≤ '9' := fun c hc => (isDigit_iff c).mp (hd c hc)
    rw [← luhnLoop_eq_luhnSum t hd]
    by_cases hne : t = []
    · subst hne
      simp [matchDigits]
    · have hm : matchDigits t = true := (matchDigits_iff t).mpr ⟨hne, hd⟩
      by_cases hlen : t.length < 13 ∨ t.length > 19
      · simp only [hm, hlen, if_true, Bool.not_true]
        constructor
        · intro h
          simp at h
        · intro h
          omega
      · have h13 : 13 ≤ t.length := by omega
        have h19 : t.length ≤ 19 := by omega
        simp only [hm, hlen, if_false, Bool.not_true, Bool.false_eq_true, beq_iff_eq]
        exact ⟨fun h => ⟨hd2, h13, h19, h⟩, fun h => h.2.2.2⟩
  · have hm : matchDigits t = false := by
      cases hmt : matchDigits t
      · rfl
      · exact absurd ((matchDigits_iff t).mp hmt).2 hd
    have hd2 : ¬ ∀ c ∈ t, '0' ≤ c ∧ c ≤ '9' :=
      fun h => hd (fun c hc => (isDigit_iff c).mpr (h c hc))
    simp only [hm, Bool.not_false, if_true]
    constructor
    · intro h
      simp at h
    · intro h
      exact absurd h.1 hd2

theorem removeSeparators_insert (a b : List Char) (c : Char) (hc : isSeparator c = true) :
    removeSeparators (a ++ c :: b) = removeSeparators (a ++ b) := by
  simp [removeSeparators, List.filter_append, List.filter_cons, hc]

theorem isValidCardNumberChars_congr (s t : List Char)
    (h : removeSeparators s = removeSeparators t) :
    isValidCardNumberChars s = isValidCardNumberChars t := by
  unfold isValidCardNumberChars
  rw [h]

end Internal.Infrastructure.Payment

/-- Claim C8: `isValidCardNumber s` is true exactly when, after removing every whitespace
character (the class `\s` of the regular expression: tab, newline, form feed, carriage
return, space) and dash from `s`, the remainder consists only of ASCII digits, has a length
from 13 to 19, and its Luhn sum (positions counted from the rightmost digit, every second
digit doubled with 9 subtracted from a doubled value above 9) is divisible by 10. So the
result depends only on what is left after removing the separators, and inserting or
removing one space, dash or other separator never changes it. -/
theorem C8_isValidCardNumber_iff_LuhnValid :
    (∀ s : String,
      Internal.Infrastructure.Payment.isValidCardNumber s = true ↔
        Internal.Infrastructure.Payment.LuhnValid s.toList) ∧
    (∀ s t : String,
      s.toList.filter (fun c => !(Internal.Infrastructure.Payment.isWhitespace c || c = '-')) =
        t.toList.filter
          (fun c => !(Internal.Infrastructure.Payment.isWhitespace c || c = '-')) →
      Internal.Infrastructure.Payment.isValidCardNumber s =
        Internal.Infrastructure.Payment.isValidCardNumber t) ∧
    (∀ (a b : List Char) (c : Char),
      (Internal.Infrastructure.Payment.isWhitespace c = true ∨ c = '-') →
      Internal.Infrastructure.Payment.isValidCardNumber (String.mk (a ++ c :: b)) =
        Internal.Infrastructure.Payment.isValidCardNumber (String.mk (a ++ b))) := by
  refine ⟨?_, ?_, ?_⟩
  · intro s
    exact Internal.Infrastructure.Payment.isValidCardNumberChars_iff s.toList
  · intro s t h
    exact Internal.Infrastructure.Payment.isValidCardNumberChars_congr s.toList t.toList h
  · intro a b c hc
    have hsep : Internal.Infrastructure.Payment.isSeparator c = true := by
      rcases hc with hc | hc
      · simp [Internal.Infrastructure.Payment.isSeparator, hc]
      · simp [Internal.Infrastructure.Payment.isSeparator, hc]
    exact Internal.Infrastructure.Payment.isValidCardNumberChars_congr _ _
      (Internal.Infrastructure.Payment.removeSeparators_insert a b c hsep)

namespace Internal.Infrastructure.Payment

/-- The Luhn sum splits at any digit: the contribution of that digit, placed as many
positions from the right as there are digits after it, plus two sums that do not depend
on it. -/
theorem luhnSum_append_cons (a b : List Nat) (x : Nat) :
    luhnSum (a ++ x :: b) =
      ((b.reverse.enumFrom 0).map (fun jd => luhnContribution jd.1 jd.2)).sum +
        luhnContribution b.length x +
        ((a.reverse.enumFrom (b.length + 1)).map
          (fun jd => luhnContribution jd.1 jd.2)).sum := by
  unfold luhnSum List.enum
  simp only [List.reverse_append, List.reverse_cons, List.append_assoc, List.singleton_append,
    List.enumFrom_append, List.enumFrom_cons, List.map_append, List.map_cons, List.sum_append,
    List.sum_cons, List.length_reverse, Nat.zero_add]
  omega

/-- At every position the contribution is a digit again and distinct digits contribute
distinct values. -/
theorem luhnContribution_injOn (j x y : Nat) (hx : x ≤ 9) (hy : y ≤ 9) (hxy : x ≠ y) :
    luhnContribution j x ≤ 9 ∧ luhnContribution j y ≤ 9 ∧
      luhnContribution j x ≠ luhnContribution j y := by
  unfold luhnContribution
  split_ifs <;> omega

theorem removeSeparators_of_digits (s : List Char) (hs : ∀ c ∈ s, isDigit c = true) :
    removeSeparators s = s := by
  unfold removeSeparators
  rw [List.filter_eq_self]
  intro c hc
  simp [isSeparator_of_isDigit c (hs c hc)]

/-- Replacing one digit of an accepted digit string by a different digit gives a rejected
string. -/
theorem isValidCardNumberChars_replace_digit (a b : List Char) (x d : Char)
    (hs : ∀ c ∈ a ++ x :: b, isDigit c = true) (hd : isDigit d = true) (hne : x ≠ d)
    (hv : isValidCardNumberChars (a ++ x :: b) = true) :
    isValidCardNumberChars (a ++ d :: b) = false := by
  have hs2 : ∀ c ∈ a ++ d :: b, isDigit c = true := by
    intro c hc
    rcases List.mem_append.mp hc with h | h
    · exact hs c (List.mem_append_left _ h)
    · rcases List.mem_cons.mp h with h | h
      · rw [h]; exact hd
      · exact hs c (List.mem_append_right _ (List.mem_cons_of_mem _ h))
  have hx : isDigit x = true := hs x (by simp)
  have hvx := (isValidCardNumberChars_iff (a ++ x :: b)).mp hv
  cases hvd : isValidCardNumberChars (a ++ d :: b)
  · rfl
  · exfalso
    have hvd2 := (isValidCardNumberChars_iff (a ++ d :: b)).mp hvd
    have e1 : List.filter (fun c => !(isWhitespace c || decide (c = '-'))) (a ++ x :: b) =
        a ++ x :: b := removeSeparators_of_digits _ hs
    have e2 : List.filter (fun c => !(isWhitespace c || decide (c = '-'))) (a ++ d :: b) =
        a ++ d :: b := removeSeparators_of_digits _ hs2
    unfold LuhnValid at hvx hvd2
    simp only [e1] at hvx
    simp only [e2] at hvd2
    have s1 := hvx.2.2.2
    have s2 := hvd2.2.2.2
    rw [List.map_append, List.map_cons, luhnSum_append_cons] at s1 s2
    have hval : digitValue x ≠ digitValue d := fun h => hne (digitValue_injOn x d hx hd h)
    have key := luhnContribution_injOn (b.map digitValue).length (digitValue x)
      (digitValue d) (digitValue_le x hx) (digitValue_le d hd) hval
    omega

end Internal.Infrastructure.Payment

/-- Claim C9: for every string of digits accepted by `isValidCardNumber` (its length is then
from 13 to 19), every position `i` in it and every digit `d` other than the digit at `i`,
the string with position `i` replaced by `d` is rejected. The known vectors are an
instance: `4532015112830366` is accepted and `4532015112830367` is rejected. -/
theorem C9_luhn_detects_single_digit_error :
    (∀ (s : String) (i : Nat) (d : Char) (hi : i < s.toList.length),
      (∀ c ∈ s.toList, '0' ≤ c ∧ c ≤ '9') →
      Internal.Infrastructure.Payment.isValidCardNumber s = true →
      ('0' ≤ d ∧ d ≤ '9') → s.toList[i] ≠ d →
      (13 ≤ s.toList.length ∧ s.toList.length ≤ 19) ∧
      Internal.Infrastructure.Payment.isValidCardNumber (String.mk (s.toList.set i d)) =
        false) ∧
    Internal.Infrastructure.Payment.isValidCardNumber "4532015112830366" = true ∧
    Internal.Infrastructure.Payment.isValidCardNumber "4532015112830367" = false := by
  refine ⟨?_, by decide, by decide⟩
  intro s i d hi hs hv hd hne
  have hs2 : ∀ c ∈ s.toList, Internal.Infrastructure.Payment.isDigit c = true :=
    fun c hc => (Internal.Infrastructure.Payment.isDigit_iff c).mpr (hs c hc)
  have hd2 := (Internal.Infrastructure.Payment.isDigit_iff d).mpr hd
  have hsplit : s.toList = s.toList.take i ++ s.toList[i] :: s.toList.drop (i + 1) := by
    rw [← List.drop_eq_getElem_cons hi, List.take_append_drop]
  have hset : s.toList.set i d = s.toList.take i ++ d :: s.toList.drop (i + 1) := by
    rw [List.set_eq_take_append_cons_drop, if_pos hi]
  constructor
  · have hl := (Internal.Infrastructure.Payment.isValidCardNumberChars_iff s.toList).mp hv
    have e1 := Internal.Infrastructure.Payment.removeSeparators_of_digits _ hs2
    unfold Internal.Infrastructure.Payment.LuhnValid at hl
    unfold Internal.Infrastructure.Payment.removeSeparators at e1
    unfold Internal.Infrastructure.Payment.isSeparator at e1
    simp only [e1] at hl
    exact ⟨hl.2.1, hl.2.2.1⟩
  · show Internal.Infrastructure.Payment.isValidCardNumberChars (s.toList.set i d) = false
    rw [hset]
    apply Internal.Infrastructure.Payment.isValidCardNumberChars_replace_digit _ _
      s.toList[i] d _ hd2 hne
    · rw [← hsplit]; exact hv
    · rw [← hsplit]; exact hs2

/-- Claim C9 at a concrete input: the accepted vector `4532015112830366` with its last
digit replaced by `7` is rejected. -/
theorem C9_luhn_detects_single_digit_error_witness :
    (13 ≤ ("4532015112830366" : String).toList.length ∧
      ("4532015112830366" : String).toList.length ≤ 19) ∧
    Internal.Infrastructure.Payment.isValidCardNumber
      (String.mk (("4532015112830366" : String).toList.set 15 '7')) = false :=
  C9_luhn_detects_single_digit_error.1 "4532015112830366" 15 '7' (by decide) (by decide)
    (by decide) (by decide) (by decide)

namespace Internal.Infrastructure.Payment

theorem isValidCVV_iff (cardInfo : PaymentService.Domain.CreditCardInfo) :
    isValidCVV cardInfo.CVV = true ↔ CVVThreeOrFourDigits cardInfo := by
  unfold isValidCVV CVVThreeOrFourDigits
  simp only [Bool.and_eq_true, Bool.or_eq_true, beq_iff_eq, List.all_eq_true]
  constructor
  · intro h
    exact ⟨h.1, fun c hc => (isDigit_iff c).mp (h.2 c hc)⟩
  · intro h
    exact ⟨h.1, fun c hc => (isDigit_iff c).mpr (h.2 c hc)⟩

/-- The card number is checked first, whatever the two clock readings are. -/
theorem ValidateCard_of_invalid_number (cardInfo : PaymentService.Domain.CreditCardInfo)
    (now1 now2 : Clock)
    (h : isValidCardNumber cardInfo.CardNumber = false) :
    ValidateCard cardInfo now1 now2 = some .ErrInvalidCardNumber := by
  simp [ValidateCard, h]

theorem ValidateCard_of_month_error (cardInfo : PaymentService.Domain.CreditCardInfo)
    (now1 now2 : Clock)
    (h : isValidCardNumber cardInfo.CardNumber = true) (hm : ¬ MonthInRange cardInfo) :
    ValidateCard cardInfo now1 now2 = some .ErrInvalidExpiryMonth := by
  unfold ValidateCard
  simp only [h, Bool.not_true, Bool.false_eq_true, if_false]
  cases hmo : Atoi cardInfo.ExpiryMonth with
  | none => rfl
  | some month =>
    by_cases hr : month < 1 ∨ month > 12
    · simp [hr]
    · exfalso
      apply hm
      exact ⟨month, hmo, by omega, by omega⟩

/-- With the number and the month accepted, what remains of `ValidateCard` on the parsed
month. -/
theorem ValidateCard_of_month (cardInfo : PaymentService.Domain.CreditCardInfo)
    (now1 now2 : Clock) (month : Int)
    (h : isValidCardNumber cardInfo.CardNumber = true)
    (hmo : Atoi cardInfo.ExpiryMonth = some month) (h1 : 1 ≤ month) (h12 : month ≤ 12) :
    ValidateCard cardInfo now1 now2 =
      match Atoi cardInfo.ExpiryYear with
      | none => some .ErrInvalidExpiryYear
      | some year =>
        if year < now1.Year then some .ErrInvalidExpiryYear
        else if year < now2.Year ∨ (year = now2.Year ∧ month < now2.Month) then
          some .ErrCardExpired
        else if !isValidCVV cardInfo.CVV then some .ErrInvalidCVV
        else none := by
  unfold ValidateCard
  have hr : ¬ (month < 1 ∨ month > 12) := by omega
  simp only [h, Bool.not_true, Bool.false_eq_true, if_false, hmo, hr]

end Internal.Infrastructure.Payment

/-- Each outcome of `ValidateCard` occurs on 2026-11: the sample card with month `13`, with
year `2025`, with expiry 10/2026, and with CVV `12`, and the same card with an invalid
number and CVV. -/
theorem ValidateCard_branches :
    Internal.Infrastructure.Payment.ValidateCard
      { Internal.Infrastructure.Payment.sampleCard with ExpiryMonth := "13" }
      ⟨2026, 11⟩ ⟨2026, 11⟩ = some .ErrInvalidExpiryMonth ∧
    Internal.Infrastructure.Payment.ValidateCard
      { Internal.Infrastructure.Payment.sampleCard with ExpiryYear := "2025" }
      ⟨2026, 11⟩ ⟨2026, 11⟩ = some .ErrInvalidExpiryYear ∧
    Internal.Infrastructure.Payment.ValidateCard
      { Internal.Infrastructure.Payment.sampleCard with
        ExpiryMonth := "10"
        ExpiryYear := "2026" }
      ⟨2026, 11⟩ ⟨2026, 11⟩ = some .ErrCardExpired ∧
    Internal.Infrastructure.Payment.ValidateCard
      { Internal.Infrastructure.Payment.sampleCard with CVV := "12" }
      ⟨2026, 11⟩ ⟨2026, 11⟩ = some .ErrInvalidCVV ∧
    Internal.Infrastructure.Payment.ValidateCard
      { Internal.Infrastructure.Payment.sampleCard with
        CardNumber := "4532015112830367"
        CVV := "12" }
      ⟨2026, 11⟩ ⟨2026, 11⟩ = some .ErrInvalidCardNumber := by
  decide

/-- Claim C10: for every card and every current date, `ValidateCard` returns
`ErrInvalidCardNumber` if the number fails `isValidCardNumber`; else `ErrInvalidExpiryMonth`
if the expiry month is not an integer in [1,12]; else an expiry error (`ErrInvalidExpiryYear`
or `ErrCardExpired`) if the expiry (year, month) is not an integer date at or after the
current (year, month); else `ErrInvalidCVV` if the CVV is not exactly 3 or 4 digits; and it
returns nil exactly when all four checks pass. A card with both an invalid number and an
invalid CVV is reported as `ErrInvalidCardNumber`, whatever the clock reads. An integer is
what `strconv.Atoi` parses, and both clock readings of the call show the current date. -/
theorem C10_ValidateCard_first_violation (cardInfo : PaymentService.Domain.CreditCardInfo)
    (now : Internal.Infrastructure.Payment.Clock) :
    (Internal.Infrastructure.Payment.isValidCardNumber cardInfo.CardNumber = false →
      Internal.Infrastructure.Payment.ValidateCard cardInfo now now =
        some .ErrInvalidCardNumber) ∧
    (Internal.Infrastructure.Payment.isValidCardNumber cardInfo.CardNumber = true →
      ¬ Internal.Infrastructure.Payment.MonthInRange cardInfo →
      Internal.Infrastructure.Payment.ValidateCard cardInfo now now =
        some .ErrInvalidExpiryMonth) ∧
    (Internal.Infrastructure.Payment.isValidCardNumber cardInfo.CardNumber = true →
      Internal.Infrastructure.Payment.MonthInRange cardInfo →
      ¬ Internal.Infrastructure.Payment.NotExpired cardInfo now →
      (Internal.Infrastructure.Payment.ValidateCard cardInfo now now =
          some .ErrInvalidExpiryYear ∨
        Internal.Infrastructure.Payment.ValidateCard cardInfo now now =
          some .ErrCardExpired)) ∧
    (Internal.Infrastructure.Payment.isValidCardNumber cardInfo.CardNumber = true →
      Internal.Infrastructure.Payment.MonthInRange cardInfo →
      Internal.Infrastructure.Payment.NotExpired cardInfo now →
      ¬ Internal.Infrastructure.Payment.CVVThreeOrFourDigits cardInfo →
      Internal.Infrastructure.Payment.ValidateCard cardInfo now now = some .ErrInvalidCVV) ∧
    (Internal.Infrastructure.Payment.ValidateCard cardInfo now now = none ↔
      (Internal.Infrastructure.Payment.isValidCardNumber cardInfo.CardNumber = true ∧
        Internal.Infrastructure.Payment.MonthInRange cardInfo ∧
        Internal.Infrastructure.Payment.NotExpired cardInfo now ∧
        Internal.Infrastructure.Payment.CVVThreeOrFourDigits cardInfo)) ∧
    (∀ now1 now2 : Internal.Infrastructure.Payment.Clock,
      Internal.Infrastructure.Payment.isValidCardNumber cardInfo.CardNumber = false →
      ¬ Internal.Infrastructure.Payment.CVVThreeOrFourDigits cardInfo →
      Internal.Infrastructure.Payment.ValidateCard cardInfo now1 now2 =
        some .ErrInvalidCardNumber) := by
  have hcvv := Internal.Infrastructure.Payment.isValidCVV_iff cardInfo
  have A := Internal.Infrastructure.Payment.ValidateCard_of_invalid_number cardInfo
  have B := Internal.Infrastructure.Payment.ValidateCard_of_month_error cardInfo now now
  -- the remaining checks, once the number and the month are accepted
  have C : ∀ month : Int,
      Internal.Infrastructure.Payment.isValidCardNumber cardInfo.CardNumber = true →
      Internal.Infrastructure.Payment.Atoi cardInfo.ExpiryMonth = some month →
      1 ≤ month → month ≤ 12 →
      (¬ Internal.Infrastructure.Payment.NotExpired cardInfo now →
        (Internal.Infrastructure.Payment.ValidateCard cardInfo now now =
            some .ErrInvalidExpiryYear ∨
          Internal.Infrastructure.Payment.ValidateCard cardInfo now now =
            some .ErrCardExpired)) ∧
      (Internal.Infrastructure.Payment.NotExpired cardInfo now →
        ¬ Internal.Infrastructure.Payment.CVVThreeOrFourDigits cardInfo →
        Internal.Infrastructure.Payment.ValidateCard cardInfo now now =
          some .ErrInvalidCVV) ∧
      (Internal.Infrastructure.Payment.NotExpired cardInfo now →
        Internal.Infrastructure.Payment.CVVThreeOrFourDigits cardInfo →
        Internal.Infrastructure.Payment.ValidateCard cardInfo now now = none) := by
    intro month hnum hmo h1 h12
    have hV := Internal.Infrastructure.Payment.ValidateCard_of_month cardInfo now now month
      hnum hmo h1 h12
    cases hy : Internal.Infrastructure.Payment.Atoi cardInfo.ExpiryYear with
    | none =>
      have hNE : ¬ Internal.Infrastructure.Payment.NotExpired cardInfo now := by
        rintro ⟨y, m, hy2, _⟩
        rw [hy] at hy2
        cases hy2
      rw [hy] at hV
      exact ⟨fun _ => Or.inl hV, fun h => absurd h hNE, fun h => absurd h hNE⟩
    | some year =>
      have hNE : Internal.Infrastructure.Payment.NotExpired cardInfo now ↔
          (now.Year < year ∨ (year = now.Year ∧ now.Month ≤ month)) := by
        constructor
        · rintro ⟨y, m, hy2, hm2, hc⟩
          rw [hy] at hy2
          rw [hmo] at hm2
          cases hy2
          cases hm2
          exact hc
        · intro hc
          exact ⟨year, month, hy, hmo, hc⟩
      rw [hy] at hV
      dsimp only at hV
      by_cases hlt : year < now.Year
      · rw [if_pos hlt] at hV
        have hno : ¬ Internal.Infrastructure.Payment.NotExpired cardInfo now := by
          rw [hNE]
          omega
        exact ⟨fun _ => Or.inl hV, fun h => absurd h hno, fun h => absurd h hno⟩
      · rw [if_neg hlt] at hV
        by_cases hexp : year < now.Year ∨ (year = now.Year ∧ month < now.Month)
        · rw [if_pos hexp] at hV
          have hno : ¬ Internal.Infrastructure.Payment.NotExpired cardInfo now := by
            rw [hNE]
            omega
          exact ⟨fun _ => Or.inr hV, fun h => absurd h hno, fun h => absurd h hno⟩
        · rw [if_neg hexp] at hV
          have hyes : Internal.Infrastructure.Payment.NotExpired cardInfo now := by
            rw [hNE]
            omega
          refine ⟨fun h => absurd hyes h, fun _ hc => ?_, fun _ hc => ?_⟩
          · have hf : Internal.Infrastructure.Payment.isValidCVV cardInfo.CVV = false := by
              cases hv : Internal.Infrastructure.Payment.isValidCVV cardInfo.CVV
              · rfl
              · exact absurd (hcvv.mp hv) hc
            rw [hV, hf]
            rfl
          · rw [hV, hcvv.mpr hc]
            rfl
  refine ⟨A now now, B, ?_, ?_, ?_, ?_⟩
  · rintro hnum ⟨m, hmo, h1, h12⟩
    exact (C m hnum hmo h1 h12).1
  · rintro hnum ⟨m, hmo, h1, h12⟩
    exact (C m hnum hmo h1 h12).2.1
  · constructor
    · intro hV
      cases hnum : Internal.Infrastructure.Payment.isValidCardNumber cardInfo.CardNumber
      · rw [A now now hnum] at hV
        cases hV
      · by_cases hm : Internal.Infrastructure.Payment.MonthInRange cardInfo
        · obtain ⟨m, hmo, h1, h12⟩ := hm
          have hC := C m hnum hmo h1 h12
          by_cases he : Internal.Infrastructure.Payment.NotExpired cardInfo now
          · by_cases hc : Internal.Infrastructure.Payment.CVVThreeOrFourDigits cardInfo
            · exact ⟨rfl, ⟨m, hmo, h1, h12⟩, he, hc⟩
            · rw [hC.2.1 he hc] at hV
              cases hV
          · rcases hC.1 he with h | h <;> rw [h] at hV <;> cases hV
        · rw [B hnum hm] at hV
          cases hV
    · rintro ⟨hnum, ⟨m, hmo, h1, h12⟩, he, hc⟩
      exact (C m hnum hmo h1 h12).2.2 he hc
  · intro now1 now2 hnum _
    exact A now1 now2 hnum

/-- Claim C10 at a concrete input: on 2026-11 the sample card (Luhn-valid number, expiry
12/2030, CVV `123`) passes all four checks, so `ValidateCard` returns nil. -/
theorem C10_ValidateCard_first_violation_witness :
    Internal.Infrastructure.Payment.ValidateCard Internal.Infrastructure.Payment.sampleCard
      ⟨2026, 11⟩ ⟨2026, 11⟩ = none :=
  (C10_ValidateCard_first_violation Internal.Infrastructure.Payment.sampleCard
    ⟨2026, 11⟩).2.2.2.2.1.mpr
    ⟨by decide, ⟨12, by decide, by decide, by decide⟩,
      ⟨2030, 12, by decide, by decide, Or.inl (by decide)⟩,
      ⟨Or.inl (by decide), by decide⟩⟩

/-! ## Card expiry, charge and refund -/

/-- Claim C11 as stated fails: on 2026-11 a card with a valid number, month `12` and year
`2025` has an expiry year earlier than the current year, and `ValidateCard` returns
`ErrInvalidExpiryYear`, not `ErrCardExpired`. -/
theorem C11_past_year_is_ErrInvalidExpiryYear :
    ¬ (∀ (cardInfo : PaymentService.Domain.CreditCardInfo)
        (now : Internal.Infrastructure.Payment.Clock) (month year : Int),
        Internal.Infrastructure.Payment.isValidCardNumber cardInfo.CardNumber = true →
        Internal.Infrastructure.Payment.Atoi cardInfo.ExpiryMonth = some month →
        1 ≤ month → month ≤ 12 →
        Internal.Infrastructure.Payment.Atoi cardInfo.ExpiryYear = some year →
        (year < now.Year ∨ (year = now.Year ∧ month < now.Month)) →
        Internal.Infrastructure.Payment.ValidateCard cardInfo now now =
          some .ErrCardExpired) := by
  intro h
  have h1 := h { Internal.Infrastructure.Payment.sampleCard with ExpiryYear := "2025" }
    ⟨2026, 11⟩ 12 2025 (by decide) (by decide) (by decide) (by decide) (by decide)
    (Or.inl (by decide))
  revert h1
  decide

/-- Claim C11, amended: for every card whose number and expiry month are valid and whose
expiry year parses as an integer, `ValidateCard` fails with `ErrInvalidExpiryYear` whenever
the expiry year is earlier than the current year, and with `ErrCardExpired` whenever the
expiry year equals the current year with the expiry month earlier than the current month.
Both clock readings of the call show the current date. -/
theorem C11_expired_card_errors (cardInfo : PaymentService.Domain.CreditCardInfo)
    (now : Internal.Infrastructure.Payment.Clock) (month year : Int)
    (hnum : Internal.Infrastructure.Payment.isValidCardNumber cardInfo.CardNumber = true)
    (hmonth : Internal.Infrastructure.Payment.Atoi cardInfo.ExpiryMonth = some month)
    (h1 : 1 ≤ month) (h12 : month ≤ 12)
    (hyear : Internal.Infrastructure.Payment.Atoi cardInfo.ExpiryYear = some year) :
    (year < now.Year →
      Internal.Infrastructure.Payment.ValidateCard cardInfo now now =
        some .ErrInvalidExpiryYear) ∧
    (year = now.Year ∧ month < now.Month →
      Internal.Infrastructure.Payment.ValidateCard cardInfo now now =
        some .ErrCardExpired) := by
  have hV := Internal.Infrastructure.Payment.ValidateCard_of_month cardInfo now now month
    hnum hmonth h1 h12
  rw [hyear] at hV
  dsimp only at hV
  constructor
  · intro hlt
    rw [hV, if_pos hlt]
  · intro hexp
    have hlt : ¬ year < now.Year := by omega
    rw [hV, if_neg hlt, if_pos (Or.inr hexp)]

/-- Claim C11, amended, at a concrete input: on 2026-11 the sample card with expiry 10/2026
is reported as `ErrCardExpired`, and a year before 2026 would be `ErrInvalidExpiryYear`. -/
theorem C11_expired_card_errors_witness :
    ((2026 : Int) < 2026 →
      Internal.Infrastructure.Payment.ValidateCard
        { Internal.Infrastructure.Payment.sampleCard with
          ExpiryMonth := "10"
          ExpiryYear := "2026" } ⟨2026, 11⟩ ⟨2026, 11⟩ = some .ErrInvalidExpiryYear) ∧
    ((2026 : Int) = 2026 ∧ (10 : Int) < 11 →
      Internal.Infrastructure.Payment.ValidateCard
        { Internal.Infrastructure.Payment.sampleCard with
          ExpiryMonth := "10"
          ExpiryYear := "2026" } ⟨2026, 11⟩ ⟨2026, 11⟩ = some .ErrCardExpired) :=
  C11_expired_card_errors
    { Internal.Infrastructure.Payment.sampleCard with
      ExpiryMonth := "10"
      ExpiryYear := "2026" } ⟨2026, 11⟩ 10 2026 (by decide) (by decide) (by decide) (by decide)
    (by decide)

set_option maxRecDepth 8192 in
/-- Claim C12, the code at failing inputs: with a valid card and a gateway that issues a
token, `ProcessPayment` on a payment of `0.29` sends a charge of 28 minor units where
`round(amount * 100)` is 29, and on the amount `10.999` of the claim it sends 1099 where
`round(amount * 100)` is 1100: the conversion `int64(amount * 100)` discards the
fraction. -/
theorem C12_charge_amount_is_truncated :
    (Internal.Infrastructure.Payment.ProcessPayment
        Internal.Infrastructure.Payment.sampleGateway
        { (PaymentService.Domain.sample "PENDING" "") with Amount := Float64.lit0_29 }
        Internal.Infrastructure.Payment.sampleCard ⟨2026, 11⟩ ⟨2026, 11⟩).sent =
      [.TokensNew (Internal.Infrastructure.Payment.tokenParams
          Internal.Infrastructure.Payment.sampleCard),
        .ChargeNew
          { Amount := 28
            Currency := "USD"
            Source := "tok_1"
            Description := "Payment for order order-1"
            Metadata := [("order_id", "order-1"), ("payment_id", "pay-1"),
              ("customer_id", "user-1")] }] ∧
    Internal.Infrastructure.Payment.roundedMinorUnits Float64.lit0_29 = 29 ∧
    (Internal.Infrastructure.Payment.chargeParams
        { (PaymentService.Domain.sample "PENDING" "") with Amount := Float64.lit10_999 }
        ⟨"tok_1"⟩).Amount = 1099 ∧
    Internal.Infrastructure.Payment.roundedMinorUnits Float64.lit10_999 = 1100 ∧
    Float64.lit0_29.gtZero = true ∧ Float64.lit10_999.gtZero = true := by
  decide

namespace Internal.Infrastructure.Payment

/-- Every path of `ProcessPayment` but the paid charge returns an error and leaves the
payment as it was; the paid charge returns nil and writes the ID of the charge into
`TransactionID`. -/
theorem ProcessPayment_payment (gw : Gateway) (payment : PaymentService.Domain.Payment)
    (cardInfo : PaymentService.Domain.CreditCardInfo) (now1 now2 : Clock) :
    ((ProcessPayment gw payment cardInfo now1 now2).err ≠ none ∧
      (ProcessPayment gw payment cardInfo now1 now2).payment = payment) ∨
    (∃ token ch, gw.TokensNew (tokenParams cardInfo) = .ok token ∧
      gw.ChargeNew (chargeParams payment token) = .ok ch ∧ ch.Paid = true ∧
      (ProcessPayment gw payment cardInfo now1 now2).err = none ∧
      (ProcessPayment gw payment cardInfo now1 now2).payment =
        { payment with TransactionID := ch.ID }) := by
  cases hv : ValidateCard cardInfo now1 now2 with
  | some err => left; simp [ProcessPayment, hv]
  | none =>
    cases ht : gw.TokensNew (tokenParams cardInfo) with
    | error err => left; simp [ProcessPayment, createStripeToken, hv, ht]
    | ok token =>
      cases hc : gw.ChargeNew (chargeParams payment token) with
      | error err => left; simp [ProcessPayment, createStripeToken, hv, ht, hc]
      | ok ch =>
        cases hp : ch.Paid with
        | false => left; simp [ProcessPayment, createStripeToken, hv, ht, hc, hp]
        | true =>
          right
          exact ⟨token, ch, rfl, hc, hp,
            by simp [ProcessPayment, createStripeToken, hv, ht, hc, hp],
            by simp [ProcessPayment, createStripeToken, hv, ht, hc, hp]⟩

theorem RefundPayment_payment (gw : Gateway) (payment : PaymentService.Domain.Payment) :
    (RefundPayment gw payment).payment = payment := by
  unfold RefundPayment
  by_cases h : payment.TransactionID = ""
  · simp [h]
  · simp only [h, if_false]
    cases gw.RefundNew (refundParams payment) <;> rfl

end Internal.Infrastructure.Payment

/-- Claim C13 as stated fails: with a valid card and a gateway that answers with the paid
charge `ch_1`, `ProcessPayment` on a payment with an empty transaction ID returns it with
transaction ID `ch_1`. -/
theorem C13_ProcessPayment_sets_TransactionID :
    ¬ (∀ (gw : Internal.Infrastructure.Payment.Gateway)
        (payment : PaymentService.Domain.Payment)
        (cardInfo : PaymentService.Domain.CreditCardInfo)
        (now1 now2 : Internal.Infrastructure.Payment.Clock),
        (Internal.Infrastructure.Payment.ProcessPayment gw payment cardInfo now1
          now2).payment = payment ∧
        (Internal.Infrastructure.Payment.RefundPayment gw payment).payment = payment) := by
  intro h
  have h1 := (h Internal.Infrastructure.Payment.sampleGateway
    (PaymentService.Domain.sample "PENDING" "")
    Internal.Infrastructure.Payment.sampleCard ⟨2026, 11⟩ ⟨2026, 11⟩).1
  revert h1
  decide

/-- Claim C13, amended: for every payment, card and gateway response, `RefundPayment` leaves
every field of the payment as it was; `ProcessPayment` leaves every field as it was whenever
it returns an error (card rejected, token error, charge error, unpaid charge), and when it
returns nil, which is on a paid charge, it has set the transaction ID to the ID of the
charge and changed nothing else; the status and the update timestamp are never written. -/
theorem C13_processor_frame (gw : Internal.Infrastructure.Payment.Gateway)
    (payment : PaymentService.Domain.Payment)
    (cardInfo : PaymentService.Domain.CreditCardInfo)
    (now1 now2 : Internal.Infrastructure.Payment.Clock) :
    (Internal.Infrastructure.Payment.RefundPayment gw payment).payment = payment ∧
    ((Internal.Infrastructure.Payment.ProcessPayment gw payment cardInfo now1 now2).err ≠
        none →
      (Internal.Infrastructure.Payment.ProcessPayment gw payment cardInfo now1
        now2).payment = payment) ∧
    ((Internal.Infrastructure.Payment.ProcessPayment gw payment cardInfo now1 now2).err =
        none →
      ∃ token ch,
        gw.TokensNew (Internal.Infrastructure.Payment.tokenParams cardInfo) = .ok token ∧
        gw.ChargeNew (Internal.Infrastructure.Payment.chargeParams payment token) = .ok ch ∧
        ch.Paid = true ∧
        (Internal.Infrastructure.Payment.ProcessPayment gw payment cardInfo now1
          now2).payment = { payment with TransactionID := ch.ID }) ∧
    (Internal.Infrastructure.Payment.ProcessPayment gw payment cardInfo now1
      now2).payment.Status = payment.Status ∧
    (Internal.Infrastructure.Payment.ProcessPayment gw payment cardInfo now1
      now2).payment.UpdatedAt = payment.UpdatedAt ∧
    (Internal.Infrastructure.Payment.ProcessPayment gw payment cardInfo now1
      now2).payment.ErrorMessage = payment.ErrorMessage := by
  have hR := Internal.Infrastructure.Payment.RefundPayment_payment gw payment
  rcases Internal.Infrastructure.Payment.ProcessPayment_payment gw payment cardInfo now1
    now2 with ⟨he, hp⟩ | ⟨token, ch, ht, hc, hpaid, he, hp⟩
  · refine ⟨hR, fun _ => hp, fun h => absurd h he, ?_, ?_, ?_⟩ <;> rw [hp]
  · refine ⟨hR, fun h => absurd he h, fun _ => ⟨token, ch, ht, hc, hpaid, hp⟩,
      ?_, ?_, ?_⟩ <;> rw [hp]

/-- Claim C14: `RefundPayment` on a payment whose transaction ID is empty returns the error
`no transaction ID found` and sends nothing to the gateway; when the transaction ID is not
empty it sends exactly one request, a refund against that transaction ID tagged with the
order, payment and user IDs, and returns nil exactly when the gateway reports success. -/
theorem C14_RefundPayment_reference (gw : Internal.Infrastructure.Payment.Gateway)
    (payment : PaymentService.Domain.Payment) :
    (payment.TransactionID = "" →
      (Internal.Infrastructure.Payment.RefundPayment gw payment).err =
          some (.New "no transaction ID found") ∧
        (Internal.Infrastructure.Payment.RefundPayment gw payment).sent = []) ∧
    (payment.TransactionID ≠ "" →
      (Internal.Infrastructure.Payment.RefundPayment gw payment).sent =
          [.RefundNew
            { Charge := payment.TransactionID
              Metadata := [("order_id", payment.OrderID), ("payment_id", payment.ID),
                ("customer_id", payment.UserID)] }] ∧
        ((Internal.Infrastructure.Payment.RefundPayment gw payment).err = none ↔
          gw.RefundNew
            { Charge := payment.TransactionID
              Metadata := [("order_id", payment.OrderID), ("payment_id", payment.ID),
                ("customer_id", payment.UserID)] } = .ok ())) := by
  constructor
  · intro h
    simp [Internal.Infrastructure.Payment.RefundPayment, h]
  · intro h
    unfold Internal.Infrastructure.Payment.RefundPayment
    simp only [h, if_false]
    show _ ∧ (_ ↔ gw.RefundNew (Internal.Infrastructure.Payment.refundParams payment) = _)
    cases gw.RefundNew (Internal.Infrastructure.Payment.refundParams payment) with
    | error err =>
      refine ⟨rfl, ?_⟩
      constructor
      · intro hc; cases hc
      · intro hc; cases hc
    | ok u => exact ⟨rfl, fun _ => rfl, fun _ => rfl⟩

/-- Claim C15 as stated fails: a PENDING payment that carries the transaction ID `ch_1`
(the state `ProcessPayment` leaves after a paid charge) is refunded: `RefundPayment`
returns nil and has sent one refund request. -/
theorem C15_RefundPayment_ignores_status :
    ¬ (∀ (gw : Internal.Infrastructure.Payment.Gateway)
        (payment : PaymentService.Domain.Payment),
        payment.Status ≠ PaymentService.Domain.PaymentStatusCompleted →
        (Internal.Infrastructure.Payment.RefundPayment gw payment).err ≠ none ∧
        (Internal.Infrastructure.Payment.RefundPayment gw payment).sent = []) := by
  intro h
  have h1 := (h Internal.Infrastructure.Payment.sampleGateway
    (PaymentService.Domain.sample PaymentService.Domain.PaymentStatusPending "ch_1")
    (by decide)).2
  revert h1
  decide

/-- Claim C15, amended: `RefundPayment` does not read the status. For every payment whose
transaction ID is empty, whatever its status, it returns an error and sends no refund
request; for every payment whose transaction ID is not empty, whatever its status, it sends
the refund request; its error and its requests are the same for every status of the
payment. It is `Payment.Refund` that returns an error, and leaves the payment as it was,
for every payment whose status is not COMPLETED. -/
theorem C15_refund_guards (gw : Internal.Infrastructure.Payment.Gateway)
    (payment : PaymentService.Domain.Payment) :
    (payment.TransactionID = "" →
      (Internal.Infrastructure.Payment.RefundPayment gw payment).err ≠ none ∧
        (Internal.Infrastructure.Payment.RefundPayment gw payment).sent = []) ∧
    (payment.TransactionID ≠ "" →
      (Internal.Infrastructure.Payment.RefundPayment gw payment).sent =
        [.RefundNew (Internal.Infrastructure.Payment.refundParams payment)]) ∧
    (∀ status : PaymentService.Domain.PaymentStatus,
      (Internal.Infrastructure.Payment.RefundPayment gw
          { payment with Status := status }).err =
        (Internal.Infrastructure.Payment.RefundPayment gw payment).err ∧
      (Internal.Infrastructure.Payment.RefundPayment gw
          { payment with Status := status }).sent =
        (Internal.Infrastructure.Payment.RefundPayment gw payment).sent) ∧
    (∀ now : Time, payment.Status ≠ PaymentService.Domain.PaymentStatusCompleted →
      (payment.Refund now).2 ≠ none ∧ (payment.Refund now).1 = payment) := by
  refine ⟨?_, ?_, ?_, ?_⟩
  · intro h
    simp [Internal.Infrastructure.Payment.RefundPayment, h]
  · intro h
    unfold Internal.Infrastructure.Payment.RefundPayment
    simp only [h, if_false]
    cases gw.RefundNew (Internal.Infrastructure.Payment.refundParams payment) <;> rfl
  · intro status
    unfold Internal.Infrastructure.Payment.RefundPayment
    have hp : Internal.Infrastructure.Payment.refundParams { payment with Status := status } =
        Internal.Infrastructure.Payment.refundParams payment := rfl
    by_cases h : payment.TransactionID = ""
    · simp [h]
    · simp only [h, if_false, hp]
      cases gw.RefundNew (Internal.Infrastructure.Payment.refundParams payment) <;>
        exact ⟨rfl, rfl⟩
  · intro now h
    rw [PaymentService.Domain.refund_of_not_completed payment now h]
    exact ⟨by simp, rfl⟩

/-! ## Chain settlement -/

namespace Internal.Infrastructure.Blockchain

/-- The guard on the hash passes exactly on a text of 66 bytes that begins with `0x`. -/
theorem malformedHash_eq_false_iff (transactionHash : String) :
    malformedHash transactionHash = false ↔
      (transactionHash.utf8ByteSize = 66 ∧ transactionHash.toList.take 2 = ['0', 'x']) := by
  simp [malformedHash]

/-- On 64-bit heights with the receipt not ahead of the head, the `uint64` subtraction is
the difference of the heights. -/
theorem uint64Sub_of_le (currentBlock receiptBlock : Nat)
    (hc : currentBlock < 18446744073709551616) (hle : receiptBlock ≤ currentBlock) :
    uint64Sub currentBlock (Big.Int.Uint64 (receiptBlock : Int)) =
      currentBlock - receiptBlock := by
  unfold uint64Sub Big.Int.Uint64
  rw [Int.natAbs_ofNat]
  omega

namespace MetaMaskProcessor

theorem VerifyTransaction_of_malformed (p : MetaMaskProcessor)
    (payment : PaymentService.Domain.Payment) (transactionHash : String)
    (h : malformedHash transactionHash = true) :
    p.VerifyTransaction payment transactionHash = some .ErrInvalidTransaction := by
  simp [VerifyTransaction, h]

theorem GetTransactionStatus_of_malformed (p : MetaMaskProcessor) (transactionHash : String)
    (h : malformedHash transactionHash = true) :
    p.GetTransactionStatus transactionHash = ("", some .ErrInvalidTransaction) := by
  simp [GetTransactionStatus, h]

/-- What `VerifyTransaction` returns on a well-formed hash whose receipt is found with
successful execution, for a height query that succeeds. -/
theorem VerifyTransaction_of_success (p : MetaMaskProcessor)
    (payment : PaymentService.Domain.Payment) (transactionHash : String) (receipt : Receipt)
    (currentBlock : Nat) (hwf : malformedHash transactionHash = false)
    (hr : p.client.TransactionReceipt transactionHash = .ok receipt)
    (hs : receipt.Status = ReceiptStatusSuccessful)
    (hb : p.client.BlockNumber = .ok currentBlock) :
    p.VerifyTransaction payment transactionHash =
      if uint64Sub currentBlock (Big.Int.Uint64 receipt.BlockNumber) < p.minConfirmations then
        some (.New "insufficient confirmations")
      else none := by
  simp [VerifyTransaction, hwf, hr, hs, hb]

/-- What `GetTransactionStatus` returns on a well-formed hash whose receipt is found with
successful execution, for a height query that succeeds. -/
theorem GetTransactionStatus_of_success (p : MetaMaskProcessor) (transactionHash : String)
    (receipt : Receipt) (currentBlock : Nat) (hwf : malformedHash transactionHash = false)
    (hr : p.client.TransactionReceipt transactionHash = .ok receipt)
    (hs : receipt.Status = ReceiptStatusSuccessful)
    (hb : p.client.BlockNumber = .ok currentBlock) :
    p.GetTransactionStatus transactionHash =
      if uint64Sub currentBlock (Big.Int.Uint64 receipt.BlockNumber) < p.minConfirmations then
        ("CONFIRMING", none)
      else ("CONFIRMED", none) := by
  simp [GetTransactionStatus, hwf, hr, hs, hb]

end MetaMaskProcessor

end Internal.Infrastructure.Blockchain

/-- Claim C16 as stated fails: for the well-formed sample hash and a node that reports the
receipt as not found, `VerifyTransaction` returns `ErrInvalidTransaction`. -/
theorem C16_not_found_is_ErrInvalidTransaction :
    ¬ (∀ (p : Internal.Infrastructure.Blockchain.MetaMaskProcessor)
        (payment : PaymentService.Domain.Payment) (transactionHash : String),
        transactionHash.utf8ByteSize = 66 → transactionHash.toList.take 2 = ['0', 'x'] →
        p.client.TransactionReceipt transactionHash = .error .NotFound →
        p.VerifyTransaction payment transactionHash ≠ some .ErrInvalidTransaction) := by
  intro h
  exact h
    (Internal.Infrastructure.Blockchain.processorWith
      (Internal.Infrastructure.Blockchain.nodeWith (.error .NotFound) (.ok 100)) 6)
    (PaymentService.Domain.sample "PROCESSING" "")
    Internal.Infrastructure.Blockchain.sampleHash (by decide) (by decide) rfl (by decide)

/-- Claim C16, amended: for every well-formed transaction hash (66 bytes, prefixed `0x`)
whose receipt the chain node reports as not found, `VerifyTransaction` returns
`ErrInvalidTransaction`, the error it returns for a malformed hash, while
`GetTransactionStatus` returns PENDING and no error for the same input. -/
theorem C16_not_found_results (p : Internal.Infrastructure.Blockchain.MetaMaskProcessor)
    (payment : PaymentService.Domain.Payment) (transactionHash : String)
    (hlen : transactionHash.utf8ByteSize = 66)
    (hpre : transactionHash.toList.take 2 = ['0', 'x'])
    (hnf : p.client.TransactionReceipt transactionHash = .error .NotFound) :
    p.VerifyTransaction payment transactionHash = some .ErrInvalidTransaction ∧
    p.GetTransactionStatus transactionHash = ("PENDING", none) ∧
    (∀ malformed : String,
      (malformed.utf8ByteSize ≠ 66 ∨ malformed.toList.take 2 ≠ ['0', 'x']) →
      p.VerifyTransaction payment malformed = some .ErrInvalidTransaction) := by
  have hwf := (Internal.Infrastructure.Blockchain.malformedHash_eq_false_iff
    transactionHash).mpr ⟨hlen, hpre⟩
  refine ⟨?_, ?_, ?_⟩
  · simp [Internal.Infrastructure.Blockchain.MetaMaskProcessor.VerifyTransaction, hwf, hnf]
  · simp [Internal.Infrastructure.Blockchain.MetaMaskProcessor.GetTransactionStatus, hwf, hnf]
  · intro malformed hm
    apply Internal.Infrastructure.Blockchain.MetaMaskProcessor.VerifyTransaction_of_malformed
    cases hmal : Internal.Infrastructure.Blockchain.malformedHash malformed
    · have := (Internal.Infrastructure.Blockchain.malformedHash_eq_false_iff malformed).mp hmal
      rcases hm with hm | hm
      · exact absurd this.1 hm
      · exact absurd this.2 hm
    · rfl

/-- Claim C16, amended, at a concrete input: the sample hash on a node that does not know
it. -/
theorem C16_not_found_results_witness :
    (Internal.Infrastructure.Blockchain.processorWith
        (Internal.Infrastructure.Blockchain.nodeWith (.error .NotFound) (.ok 100))
        6).VerifyTransaction (PaymentService.Domain.sample "PROCESSING" "")
        Internal.Infrastructure.Blockchain.sampleHash = some .ErrInvalidTransaction ∧
    (Internal.Infrastructure.Blockchain.processorWith
        (Internal.Infrastructure.Blockchain.nodeWith (.error .NotFound) (.ok 100))
        6).GetTransactionStatus Internal.Infrastructure.Blockchain.sampleHash =
      ("PENDING", none) ∧
    (∀ malformed : String,
      (malformed.utf8ByteSize ≠ 66 ∨ malformed.toList.take 2 ≠ ['0', 'x']) →
      (Internal.Infrastructure.Blockchain.processorWith
        (Internal.Infrastructure.Blockchain.nodeWith (.error .NotFound) (.ok 100))
        6).VerifyTransaction (PaymentService.Domain.sample "PROCESSING" "") malformed =
        some .ErrInvalidTransaction) :=
  C16_not_found_results
    (Internal.Infrastructure.Blockchain.processorWith
      (Internal.Infrastructure.Blockchain.nodeWith (.error .NotFound) (.ok 100)) 6)
    (PaymentService.Domain.sample "PROCESSING" "")
    Internal.Infrastructure.Blockchain.sampleHash (by decide) (by decide) rfl

/-- Claim C17: for every well-formed hash whose receipt is found with successful execution,
every threshold `minConfirmations` and every pair of 64-bit heights with
`currentBlock ≥ receiptBlock`: if `currentBlock - receiptBlock < minConfirmations` then
`GetTransactionStatus` returns CONFIRMING and `VerifyTransaction` returns an error, and
otherwise `GetTransactionStatus` returns CONFIRMED and `VerifyTransaction` returns nil. -/
theorem C17_confirmation_boundary
    (p : Internal.Infrastructure.Blockchain.MetaMaskProcessor)
    (payment : PaymentService.Domain.Payment) (transactionHash : String)
    (receipt : Internal.Infrastructure.Blockchain.Receipt) (receiptBlock currentBlock : Nat)
    (hlen : transactionHash.utf8ByteSize = 66)
    (hpre : transactionHash.toList.take 2 = ['0', 'x'])
    (hr : p.client.TransactionReceipt transactionHash = .ok receipt)
    (hs : receipt.Status = Internal.Infrastructure.Blockchain.ReceiptStatusSuccessful)
    (hrb : receipt.BlockNumber = (receiptBlock : Int))
    (hb : p.client.BlockNumber = .ok currentBlock)
    (h64 : currentBlock < 18446744073709551616) (hle : receiptBlock ≤ currentBlock) :
    (currentBlock - receiptBlock < p.minConfirmations →
      p.GetTransactionStatus transactionHash = ("CONFIRMING", none) ∧
        p.VerifyTransaction payment transactionHash ≠ none) ∧
    (p.minConfirmations ≤ currentBlock - receiptBlock →
      p.GetTransactionStatus transactionHash = ("CONFIRMED", none) ∧
        p.VerifyTransaction payment transactionHash = none) := by
  have hwf := (Internal.Infrastructure.Blockchain.malformedHash_eq_false_iff
    transactionHash).mpr ⟨hlen, hpre⟩
  have hV := Internal.Infrastructure.Blockchain.MetaMaskProcessor.VerifyTransaction_of_success
    p payment transactionHash receipt currentBlock hwf hr hs hb
  have hG :=
    Internal.Infrastructure.Blockchain.MetaMaskProcessor.GetTransactionStatus_of_success
      p transactionHash receipt currentBlock hwf hr hs hb
  rw [hrb, Internal.Infrastructure.Blockchain.uint64Sub_of_le currentBlock receiptBlock h64
    hle] at hV hG
  constructor
  · intro hlt
    rw [hV, hG, if_pos hlt, if_pos hlt]
    exact ⟨rfl, by simp⟩
  · intro hge
    have hnlt : ¬ currentBlock - receiptBlock < p.minConfirmations := by omega
    rw [hV, hG, if_neg hnlt, if_neg hnlt]
    exact ⟨rfl, rfl⟩

/-- Claim C17 at concrete inputs: with `minConfirmations = 6` and the receipt in block 100,
the head at 105 (a difference of 5) gives CONFIRMING and the head at 106 (a difference of 6)
gives CONFIRMED. -/
theorem C17_confirmation_boundary_witness :
    ((Internal.Infrastructure.Blockchain.processorWith
        (Internal.Infrastructure.Blockchain.nodeWith (.ok ⟨1, 100⟩) (.ok 105))
        6).GetTransactionStatus Internal.Infrastructure.Blockchain.sampleHash =
        ("CONFIRMING", none) ∧
      (Internal.Infrastructure.Blockchain.processorWith
        (Internal.Infrastructure.Blockchain.nodeWith (.ok ⟨1, 100⟩) (.ok 105))
        6).VerifyTransaction (PaymentService.Domain.sample "PROCESSING" "")
        Internal.Infrastructure.Blockchain.sampleHash ≠ none) ∧
    ((Internal.Infrastructure.Blockchain.processorWith
        (Internal.Infrastructure.Blockchain.nodeWith (.ok ⟨1, 100⟩) (.ok 106))
        6).GetTransactionStatus Internal.Infrastructure.Blockchain.sampleHash =
        ("CONFIRMED", none) ∧
      (Internal.Infrastructure.Blockchain.processorWith
        (Internal.Infrastructure.Blockchain.nodeWith (.ok ⟨1, 100⟩) (.ok 106))
        6).VerifyTransaction (PaymentService.Domain.sample "PROCESSING" "")
        Internal.Infrastructure.Blockchain.sampleHash = none) :=
  ⟨(C17_confirmation_boundary
      (Internal.Infrastructure.Blockchain.processorWith
        (Internal.Infrastructure.Blockchain.nodeWith (.ok ⟨1, 100⟩) (.ok 105)) 6)
      (PaymentService.Domain.sample "PROCESSING" "")
      Internal.Infrastructure.Blockchain.sampleHash ⟨1, 100⟩ 100 105 (by decide) (by decide)
      rfl rfl rfl rfl (by decide) (by decide)).1 (by decide),
    (C17_confirmation_boundary
      (Internal.Infrastructure.Blockchain.processorWith
        (Internal.Infrastructure.Blockchain.nodeWith (.ok ⟨1, 100⟩) (.ok 106)) 6)
      (PaymentService.Domain.sample "PROCESSING" "")
      Internal.Infrastructure.Blockchain.sampleHash ⟨1, 100⟩ 100 106 (by decide) (by decide)
      rfl rfl rfl rfl (by decide) (by decide)).2 (by decide)⟩

namespace Internal.Infrastructure.Blockchain.MetaMaskProcessor

/-- The two methods agree on every node response in which the receipt is not reported as
not found and the height query succeeds: the decision table is the same. -/
theorem decision_table_agrees_of_height (p : MetaMaskProcessor)
    (payment : PaymentService.Domain.Payment) (transactionHash : String) (currentBlock : Nat)
    (hnf : p.client.TransactionReceipt transactionHash ≠ .error .NotFound)
    (hb : p.client.BlockNumber = .ok currentBlock) :
    (p.VerifyTransaction payment transactionHash = none ↔
      p.GetTransactionStatus transactionHash = ("CONFIRMED", none)) ∧
    (p.VerifyTransaction payment transactionHash = some .ErrTransactionFailed ↔
      p.GetTransactionStatus transactionHash = ("FAILED", none)) ∧
    (p.VerifyTransaction payment transactionHash = some (.New "insufficient confirmations") ↔
      p.GetTransactionStatus transactionHash = ("CONFIRMING", none)) ∧
    (p.VerifyTransaction payment transactionHash = some .ErrInvalidTransaction ↔
      p.GetTransactionStatus transactionHash = ("", some .ErrInvalidTransaction)) ∧
    (∀ err : ClientError,
      p.VerifyTransaction payment transactionHash = some (.Client err) ↔
        p.GetTransactionStatus transactionHash = ("", some (.Client err))) := by
  unfold VerifyTransaction GetTransactionStatus
  cases hm : malformedHash transactionHash
  · cases hr : p.client.TransactionReceipt transactionHash with
    | error err =>
      have hne : err ≠ .NotFound := by
        intro h
        rw [hr, h] at hnf
        exact hnf rfl
      simp [hne]
    | ok receipt =>
      by_cases hs : receipt.Status = ReceiptStatusSuccessful
      · by_cases hc : uint64Sub currentBlock (Big.Int.Uint64 receipt.BlockNumber) <
            p.minConfirmations
        · simp [hb, hs, hc]
        · simp [hb, hs, hc]
      · simp [hb, hs]
  · simp

/-- Whatever the processor, `convertToWei` returns a value on every amount that is not a
NaN. -/
theorem convertToWei_of_not_nan (p : MetaMaskProcessor) (amount : Float64)
    (h : amount.isNaN = false) : ∃ wei, p.convertToWei amount = some wei := by
  have h10 : Big.NewFloat Float64.tenPow18 = some (.finite false 7812500000000000 7) := by
    decide
  unfold convertToWei
  rw [h10]
  unfold Big.NewFloat
  rw [h]
  cases hi : amount.isInf
  · simp [Big.Float.Mul]
  · simp [Big.Float.Mul]

end Internal.Infrastructure.Blockchain.MetaMaskProcessor

/-- Claim C18, the code at a failing input: for the well-formed sample hash, a receipt found
with failed execution and a height query that fails with an RPC error, the receipt lookup
does not report not-found, `VerifyTransaction` returns `ErrTransactionFailed`, and
`GetTransactionStatus` returns the RPC error and not FAILED. -/
theorem C18_failed_receipt_with_height_error :
    (Internal.Infrastructure.Blockchain.nodeWith (.ok ⟨0, 100⟩)
        (.error (.Other "connection refused"))).TransactionReceipt
        Internal.Infrastructure.Blockchain.sampleHash ≠ .error .NotFound ∧
    (Internal.Infrastructure.Blockchain.processorWith
        (Internal.Infrastructure.Blockchain.nodeWith (.ok ⟨0, 100⟩)
          (.error (.Other "connection refused")))
        6).VerifyTransaction (PaymentService.Domain.sample "PROCESSING" "")
        Internal.Infrastructure.Blockchain.sampleHash = some .ErrTransactionFailed ∧
    (Internal.Infrastructure.Blockchain.processorWith
        (Internal.Infrastructure.Blockchain.nodeWith (.ok ⟨0, 100⟩)
          (.error (.Other "connection refused")))
        6).GetTransactionStatus Internal.Infrastructure.Blockchain.sampleHash =
      ("", some (.Client (.Other "connection refused"))) ∧
    (Internal.Infrastructure.Blockchain.processorWith
        (Internal.Infrastructure.Blockchain.nodeWith (.ok ⟨0, 100⟩)
          (.error (.Other "connection refused")))
        6).GetTransactionStatus Internal.Infrastructure.Blockchain.sampleHash ≠
      ("FAILED", none) := by
  refine ⟨?_, by decide, by decide, by decide⟩
  intro h
  cases h

set_option maxRecDepth 8192 in
/-- Claim C19, the code at a failing input: `convertToWei` gives the two values of the
claim, `1500000000000000000` for `1.5` and `1` for `0.000000000000000001`, but on `1.1` it
returns `1100000000000000128`, where the amount times `10^18` truncated is
`1100000000000000088` for the `float64` and `1100000000000000000` for the decimal `1.1`:
the product is rounded to 53 bits before it is truncated. -/
theorem C19_convertToWei_rounds_to_53_bits :
    (Internal.Infrastructure.Blockchain.processorWith
        (Internal.Infrastructure.Blockchain.nodeWith (.error .NotFound) (.ok 0))
        6).convertToWei Float64.lit1_5 = some 1500000000000000000 ∧
    (Internal.Infrastructure.Blockchain.processorWith
        (Internal.Infrastructure.Blockchain.nodeWith (.error .NotFound) (.ok 0))
        6).convertToWei Float64.lit1em18 = some 1 ∧
    (Internal.Infrastructure.Blockchain.processorWith
        (Internal.Infrastructure.Blockchain.nodeWith (.error .NotFound) (.ok 0))
        6).convertToWei Float64.lit1_1 = some 1100000000000000128 ∧
    Internal.Infrastructure.Blockchain.exactWei Float64.lit1_1 = 1100000000000000088 ∧
    Internal.Infrastructure.Blockchain.exactWei Float64.lit1_5 = 1500000000000000000 := by
  decide

namespace Internal.Infrastructure.Blockchain.MetaMaskProcessor

/-- An amount above 0 is not a NaN. -/
theorem isNaN_of_gtZero (amount : Float64) (h : amount.gtZero = true) :
    amount.isNaN = false := by
  unfold Float64.gtZero at h
  cases hn : amount.isNaN
  · rfl
  · rw [hn] at h
    simp at h

/-- Method `InitiateTransaction` on every amount that is not a NaN: it returns
`ErrInvalidWalletAddress` and no info when the wallet address is not a well-formed hex
address; for every well-formed address it returns a `MetaMaskInfo` whose wallet address is
the input address, whose contract address is the processor's configured contract address,
whose `AmountWei` is the decimal string of `convertToWei(payment.Amount)`, and whose
transaction hash is empty; in both cases the payment is as it was. -/
theorem InitiateTransaction_of_not_nan (p : MetaMaskProcessor)
    (payment : PaymentService.Domain.Payment) (walletAddress : String)
    (hnan : payment.Amount.isNaN = false) :
    (Common.IsHexAddress walletAddress = false →
      p.InitiateTransaction payment walletAddress =
        (payment, .error .ErrInvalidWalletAddress)) ∧
    (Common.IsHexAddress walletAddress = true →
      ∃ wei, p.convertToWei payment.Amount = some wei ∧
        p.InitiateTransaction payment walletAddress =
          (payment, .info
            { WalletAddress := walletAddress
              TransactionHash := ""
              ContractAddress := p.contractAddr.Hex
              AmountWei := Big.Int.String wei })) := by
  constructor
  · intro h
    simp [InitiateTransaction, h]
  · intro h
    obtain ⟨wei, hwei⟩ := convertToWei_of_not_nan p payment.Amount hnan
    exact ⟨wei, hwei, by simp [InitiateTransaction, h, hwei]⟩

/-- On every payment that satisfies the invariant of the entity, an amount above 0,
`InitiateTransaction` does what is said of it: `ErrInvalidWalletAddress` and no info on an
address that is not well formed, and on a well-formed address the info with the input
address, the processor's configured contract address, the decimal string of
`convertToWei(payment.Amount)` and an empty transaction hash; the payment is as it was. -/
theorem InitiateTransaction_of_positive_amount (p : MetaMaskProcessor)
    (payment : PaymentService.Domain.Payment) (walletAddress : String)
    (hpos : payment.Amount.gtZero = true) :
    (Common.IsHexAddress walletAddress = false →
      p.InitiateTransaction payment walletAddress =
        (payment, .error .ErrInvalidWalletAddress)) ∧
    (Common.IsHexAddress walletAddress = true →
      ∃ wei, p.convertToWei payment.Amount = some wei ∧
        p.InitiateTransaction payment walletAddress =
          (payment, .info
            { WalletAddress := walletAddress
              TransactionHash := ""
              ContractAddress := p.contractAddr.Hex
              AmountWei := Big.Int.String wei })) :=
  InitiateTransaction_of_not_nan p payment walletAddress
    (isNaN_of_gtZero payment.Amount hpos)

/-- The sample payment of 100.0 and the sample wallet address: the info is returned. -/
theorem InitiateTransaction_of_positive_amount_sample :
    ∃ wei,
      (processorWith (nodeWith (.error .NotFound) (.ok 0)) 6).convertToWei
        (PaymentService.Domain.sample "PENDING" "").Amount = some wei ∧
      (processorWith (nodeWith (.error .NotFound) (.ok 0)) 6).InitiateTransaction
        (PaymentService.Domain.sample "PENDING" "") sampleWallet =
        (PaymentService.Domain.sample "PENDING" "", .info
          { WalletAddress := sampleWallet
            TransactionHash := ""
            ContractAddress := "0xde709f2102306220921060314715629080e2fb77"
            AmountWei := Big.Int.String wei }) :=
  (InitiateTransaction_of_positive_amount
    (processorWith (nodeWith (.error .NotFound) (.ok 0)) 6)
    (PaymentService.Domain.sample "PENDING" "") sampleWallet (by decide)).2 (by decide)

end Internal.Infrastructure.Blockchain.MetaMaskProcessor

/-- Claim C20, the code at the failing input: `NewPayment` returns a METAMASK payment whose
amount is NaN, and for that payment and the well-formed sample address `InitiateTransaction`
returns no info: `big.NewFloat` panics inside `convertToWei`, where the claim has a
`MetaMaskInfo` returned for every well-formed address. -/
theorem C20_InitiateTransaction_panics_on_NaN :
    PaymentService.Domain.NewPayment "order-1" "user-1" Float64.nan "ETH"
        PaymentService.Domain.PaymentMethodMetaMask 1000 1001 =
      .ok { ID := "", OrderID := "order-1", UserID := "user-1", Amount := Float64.nan,
            Currency := "ETH", Status := PaymentService.Domain.PaymentStatusPending,
            PaymentMethod := PaymentService.Domain.PaymentMethodMetaMask,
            TransactionID := "", ErrorMessage := "", CreatedAt := 1000,
            UpdatedAt := 1001 } ∧
    Common.IsHexAddress Internal.Infrastructure.Blockchain.sampleWallet = true ∧
    (Internal.Infrastructure.Blockchain.processorWith
        (Internal.Infrastructure.Blockchain.nodeWith (.error .NotFound) (.ok 0))
        6).convertToWei Float64.nan = none ∧
    (Internal.Infrastructure.Blockchain.processorWith
        (Internal.Infrastructure.Blockchain.nodeWith (.error .NotFound) (.ok 0))
        6).InitiateTransaction
        { ID := "", OrderID := "order-1", UserID := "user-1", Amount := Float64.nan,
          Currency := "ETH", Status := PaymentService.Domain.PaymentStatusPending,
          PaymentMethod := PaymentService.Domain.PaymentMethodMetaMask,
          TransactionID := "", ErrorMessage := "", CreatedAt := 1000, UpdatedAt := 1001 }
        Internal.Infrastructure.Blockchain.sampleWallet =
      ({ ID := "", OrderID := "order-1", UserID := "user-1", Amount := Float64.nan,
         Currency := "ETH", Status := PaymentService.Domain.PaymentStatusPending,
         PaymentMethod := PaymentService.Domain.PaymentMethodMetaMask,
         TransactionID := "", ErrorMessage := "", CreatedAt := 1000, UpdatedAt := 1001 },
        .panic) := by
  refine ⟨rfl, by decide, by decide, by decide⟩

set_option maxRecDepth 8192 in
/-- The result of `InitiateTransaction` evaluated on a payment of `1.5` and the sample
wallet address, and on an address that is too short. -/
theorem InitiateTransaction_sample :
    (Internal.Infrastructure.Blockchain.processorWith
        (Internal.Infrastructure.Blockchain.nodeWith (.error .NotFound) (.ok 0))
        6).InitiateTransaction
        { (PaymentService.Domain.sample "PENDING" "") with Amount := Float64.lit1_5 }
        Internal.Infrastructure.Blockchain.sampleWallet =
      ({ (PaymentService.Domain.sample "PENDING" "") with Amount := Float64.lit1_5 }, .info
        { WalletAddress := "0x52908400098527886E0F7030069857D2E4169EE7"
          TransactionHash := ""
          ContractAddress := "0xde709f2102306220921060314715629080e2fb77"
          AmountWei := "1500000000000000000" }) ∧
    ((Internal.Infrastructure.Blockchain.processorWith
        (Internal.Infrastructure.Blockchain.nodeWith (.error .NotFound) (.ok 0))
        6).InitiateTransaction (PaymentService.Domain.sample "PENDING" "") "0x5290").2 =
      .error .ErrInvalidWalletAddress := by
  decide

/-! ## The two `Payment` implementations are equivalent -/

namespace Refinement

theorem related_NewPayment (orderID userID : String) (amount : Float64) (currency : String)
    (method : String) (now1 now2 : Time) :
    RelatedResult (Internal.Domain.NewPayment orderID userID amount currency method now1 now2)
      (PaymentService.Domain.NewPayment orderID userID amount currency method now1 now2) := by
  unfold Internal.Domain.NewPayment PaymentService.Domain.NewPayment
  simp only [Internal.Domain.string, Internal.Domain.PaymentMethodCreditCard,
    Internal.Domain.PaymentMethodMetaMask, PaymentService.Domain.PaymentMethodCreditCard,
    PaymentService.Domain.PaymentMethodMetaMask, Internal.Domain.PaymentStatusPending,
    PaymentService.Domain.PaymentStatusPending]
  split
  · exact trivial
  split
  · exact trivial
  split
  · exact trivial
  split
  · exact trivial
  split
  · exact trivial
  · exact ⟨rfl, rfl, rfl, rfl, rfl, rfl, rfl, rfl, rfl, rfl, rfl⟩

theorem related_UpdateStatus (a : Internal.Domain.Payment) (b : PaymentService.Domain.Payment)
    (h : Related a b) (status : String) (now : Time) :
    Related (a.UpdateStatus status now) (b.UpdateStatus status now) := by
  obtain ⟨h1, h2, h3, h4, h5, _, h7, h8, h9, h10, _⟩ := h
  exact ⟨h1, h2, h3, h4, h5, rfl, h7, h8, h9, h10, rfl⟩

theorem related_SetTransactionID (a : Internal.Domain.Payment)
    (b : PaymentService.Domain.Payment) (h : Related a b) (txID : String) (now : Time) :
    Related (a.SetTransactionID txID now) (b.SetTransactionID txID now) := by
  obtain ⟨h1, h2, h3, h4, h5, h6, h7, _, h9, h10, _⟩ := h
  exact ⟨h1, h2, h3, h4, h5, h6, h7, rfl, h9, h10, rfl⟩

theorem related_SetError (a : Internal.Domain.Payment) (b : PaymentService.Domain.Payment)
    (h : Related a b) (err : String) (now : Time) :
    Related (a.SetError err now) (b.SetError err now) := by
  obtain ⟨h1, h2, h3, h4, h5, _, h7, h8, _, h10, _⟩ := h
  exact ⟨h1, h2, h3, h4, h5, rfl, h7, h8, rfl, h10, rfl⟩

theorem related_IsCompleted (a : Internal.Domain.Payment) (b : PaymentService.Domain.Payment)
    (h : Related a b) : a.IsCompleted = b.IsCompleted := by
  unfold Internal.Domain.Payment.IsCompleted PaymentService.Domain.Payment.IsCompleted
  rw [h.2.2.2.2.2.1]
  rfl

theorem related_IsPending (a : Internal.Domain.Payment) (b : PaymentService.Domain.Payment)
    (h : Related a b) : a.IsPending = b.IsPending := by
  unfold Internal.Domain.Payment.IsPending PaymentService.Domain.Payment.IsPending
  rw [h.2.2.2.2.2.1]
  rfl

theorem related_CanBeRetried (a : Internal.Domain.Payment) (b : PaymentService.Domain.Payment)
    (h : Related a b) : a.CanBeRetried = b.CanBeRetried := by
  unfold Internal.Domain.Payment.CanBeRetried PaymentService.Domain.Payment.CanBeRetried
  rw [h.2.2.2.2.2.1]
  rfl

theorem related_MarkAsProcessing (a : Internal.Domain.Payment)
    (b : PaymentService.Domain.Payment) (h : Related a b) (now : Time) :
    Related (a.MarkAsProcessing now) (b.MarkAsProcessing now) := by
  have hs : a.Status = b.Status := h.2.2.2.2.2.1
  obtain ⟨h1, h2, h3, h4, h5, h6, h7, h8, h9, h10, h11⟩ := h
  unfold Internal.Domain.Payment.MarkAsProcessing PaymentService.Domain.Payment.MarkAsProcessing
  by_cases hp : b.Status = PaymentService.Domain.PaymentStatusPending
  · have hp2 : a.Status = Internal.Domain.string Internal.Domain.PaymentStatusPending := by
      rw [hs, hp]; rfl
    rw [if_pos hp, if_pos hp2]
    exact ⟨h1, h2, h3, h4, h5, rfl, h7, h8, h9, h10, rfl⟩
  · have hp2 : ¬ a.Status = Internal.Domain.string Internal.Domain.PaymentStatusPending := by
      rw [hs]; exact hp
    rw [if_neg hp, if_neg hp2]
    exact ⟨h1, h2, h3, h4, h5, h6, h7, h8, h9, h10, h11⟩

theorem related_MarkAsCompleted (a : Internal.Domain.Payment)
    (b : PaymentService.Domain.Payment) (h : Related a b) (transactionID : String)
    (now : Time) :
    Related (a.MarkAsCompleted transactionID now) (b.MarkAsCompleted transactionID now) := by
  have hpend := related_IsPending a b h
  obtain ⟨h1, h2, h3, h4, h5, h6, h7, h8, h9, h10, h11⟩ := h
  unfold Internal.Domain.Payment.MarkAsCompleted PaymentService.Domain.Payment.MarkAsCompleted
  rw [hpend]
  cases b.IsPending
  · exact ⟨h1, h2, h3, h4, h5, h6, h7, h8, h9, h10, h11⟩
  · exact ⟨h1, h2, h3, h4, h5, rfl, h7, rfl, h9, h10, rfl⟩

theorem related_Cancel (a : Internal.Domain.Payment) (b : PaymentService.Domain.Payment)
    (h : Related a b) (now : Time) : Related (a.Cancel now) (b.Cancel now) := by
  have hpend := related_IsPending a b h
  obtain ⟨h1, h2, h3, h4, h5, h6, h7, h8, h9, h10, h11⟩ := h
  unfold Internal.Domain.Payment.Cancel PaymentService.Domain.Payment.Cancel
  rw [hpend]
  cases b.IsPending
  · exact ⟨h1, h2, h3, h4, h5, h6, h7, h8, h9, h10, h11⟩
  · exact ⟨h1, h2, h3, h4, h5, rfl, h7, h8, h9, h10, rfl⟩

theorem related_Refund (a : Internal.Domain.Payment) (b : PaymentService.Domain.Payment)
    (h : Related a b) (now : Time) :
    Related (a.Refund now).1 (b.Refund now).1 ∧
      SameOutcome (a.Refund now).2 (b.Refund now).2 := by
  have hs : a.Status = b.Status := h.2.2.2.2.2.1
  obtain ⟨h1, h2, h3, h4, h5, h6, h7, h8, h9, h10, h11⟩ := h
  by_cases hc : b.Status = PaymentService.Domain.PaymentStatusCompleted
  · have hc2 : a.Status = Internal.Domain.string Internal.Domain.PaymentStatusCompleted := by
      rw [hs, hc]; rfl
    rw [PaymentService.Domain.refund_of_completed b now hc,
      Internal.Domain.string_refund_of_completed a now hc2]
    exact ⟨⟨h1, h2, h3, h4, h5, rfl, h7, h8, h9, h10, rfl⟩, trivial⟩
  · have hc2 : a.Status ≠ Internal.Domain.string Internal.Domain.PaymentStatusCompleted := by
      rw [hs]; exact hc
    rw [PaymentService.Domain.refund_of_not_completed b now hc,
      Internal.Domain.string_refund_of_not_completed a now hc2]
    exact ⟨⟨h1, h2, h3, h4, h5, h6, h7, h8, h9, h10, h11⟩, rfl⟩

end Refinement

/-- Claim C23: relating a string-status payment to the typed-status payment with the same
field values, `NewPayment` on equal arguments returns related results (related payments, or
the same error), every mutating method (`UpdateStatus`, `SetTransactionID`, `SetError`,
`MarkAsProcessing`, `MarkAsCompleted`, `Cancel`, `Refund`) takes related payments to related
payments for equal arguments and clock readings, the predicates `IsCompleted`, `IsPending`
and `CanBeRetried` return the same boolean, and `Refund` returns the same error outcome. -/
theorem C23_payment_implementations_equivalent :
    (∀ (orderID userID : String) (amount : Float64) (currency method : String)
        (now1 now2 : Time),
      Refinement.RelatedResult
        (Internal.Domain.NewPayment orderID userID amount currency method now1 now2)
        (PaymentService.Domain.NewPayment orderID userID amount currency method now1 now2)) ∧
    (∀ (a : Internal.Domain.Payment) (b : PaymentService.Domain.Payment),
      Refinement.Related a b →
      (∀ (status : String) (now : Time),
        Refinement.Related (a.UpdateStatus status now) (b.UpdateStatus status now)) ∧
      (∀ (txID : String) (now : Time),
        Refinement.Related (a.SetTransactionID txID now) (b.SetTransactionID txID now)) ∧
      (∀ (err : String) (now : Time),
        Refinement.Related (a.SetError err now) (b.SetError err now)) ∧
      a.IsCompleted = b.IsCompleted ∧
      a.IsPending = b.IsPending ∧
      a.CanBeRetried = b.CanBeRetried ∧
      (∀ now : Time, Refinement.Related (a.MarkAsProcessing now) (b.MarkAsProcessing now)) ∧
      (∀ (transactionID : String) (now : Time),
        Refinement.Related (a.MarkAsCompleted transactionID now)
          (b.MarkAsCompleted transactionID now)) ∧
      (∀ now : Time, Refinement.Related (a.Cancel now) (b.Cancel now)) ∧
      (∀ now : Time,
        Refinement.Related (a.Refund now).1 (b.Refund now).1 ∧
          Refinement.SameOutcome (a.Refund now).2 (b.Refund now).2)) := by
  refine ⟨Refinement.related_NewPayment, ?_⟩
  intro a b h
  exact ⟨Refinement.related_UpdateStatus a b h, Refinement.related_SetTransactionID a b h,
    Refinement.related_SetError a b h, Refinement.related_IsCompleted a b h,
    Refinement.related_IsPending a b h, Refinement.related_CanBeRetried a b h,
    Refinement.related_MarkAsProcessing a b h, Refinement.related_MarkAsCompleted a b h,
    Refinement.related_Cancel a b h, Refinement.related_Refund a b h⟩

/-- Claim C23 at a concrete input: the two sample payments, COMPLETED with charge `ch_1`,
are related, so a refund of each at the same clock reading gives related payments and the
same outcome, and the two constructors agree on the arguments of the sample. -/
theorem C23_payment_implementations_equivalent_witness :
    (Refinement.Related ((Internal.Domain.sample "COMPLETED" "ch_1").Refund 2000).1
        ((PaymentService.Domain.sample "COMPLETED" "ch_1").Refund 2000).1 ∧
      Refinement.SameOutcome ((Internal.Domain.sample "COMPLETED" "ch_1").Refund 2000).2
        ((PaymentService.Domain.sample "COMPLETED" "ch_1").Refund 2000).2) ∧
    Refinement.RelatedResult
      (Internal.Domain.NewPayment "order-1" "user-1" Float64.hundred "USD" "CREDIT_CARD"
        1000 1000)
      (PaymentService.Domain.NewPayment "order-1" "user-1" Float64.hundred "USD"
        "CREDIT_CARD" 1000 1000) :=
  ⟨(C23_payment_implementations_equivalent.2 (Internal.Domain.sample "COMPLETED" "ch_1")
      (PaymentService.Domain.sample "COMPLETED" "ch_1") (by decide)).2.2.2.2.2.2.2.2.2 2000,
    C23_payment_implementations_equivalent.1 "order-1" "user-1" Float64.hundred "USD"
      "CREDIT_CARD" 1000 1000⟩

/-! ## Idempotence of settlement and confirmations ahead of the head -/

namespace Internal.Infrastructure.Payment

/-- What `ProcessPayment` sends: nothing when the card is rejected, the token request alone
when the gateway gives no token, and the token request followed by the charge request
otherwise. -/
theorem ProcessPayment_sent (gw : Gateway) (payment : PaymentService.Domain.Payment)
    (cardInfo : PaymentService.Domain.CreditCardInfo) (now1 now2 : Clock) :
    (ValidateCard cardInfo now1 now2 ≠ none →
      (ProcessPayment gw payment cardInfo now1 now2).sent = []) ∧
    (ValidateCard cardInfo now1 now2 = none →
      (∀ err, gw.TokensNew (tokenParams cardInfo) = .error err →
        (ProcessPayment gw payment cardInfo now1 now2).sent =
          [.TokensNew (tokenParams cardInfo)]) ∧
      (∀ token, gw.TokensNew (tokenParams cardInfo) = .ok token →
        (ProcessPayment gw payment cardInfo now1 now2).sent =
          [.TokensNew (tokenParams cardInfo), .ChargeNew (chargeParams payment token)])) := by
  constructor
  · intro hv
    cases hv2 : ValidateCard cardInfo now1 now2 with
    | none => exact absurd hv2 hv
    | some err => simp [ProcessPayment, hv2]
  · intro hv
    constructor
    · intro err ht
      simp [ProcessPayment, createStripeToken, hv, ht]
    · intro token ht
      cases hc : gw.ChargeNew (chargeParams payment token) with
      | error err => simp [ProcessPayment, createStripeToken, hv, ht, hc]
      | ok ch =>
        cases hp : ch.Paid with
        | false => simp [ProcessPayment, createStripeToken, hv, ht, hc, hp]
        | true => simp [ProcessPayment, createStripeToken, hv, ht, hc, hp]

end Internal.Infrastructure.Payment

/-- Claim C21 as stated fails for `ProcessPayment`: on a COMPLETED payment that carries the
transaction reference `ch_0`, with a valid card and a gateway that answers with the paid
charge `ch_1`, it sends a token request and a charge request and replaces the reference by
`ch_1`. -/
theorem C21_ProcessPayment_charges_completed_again :
    ¬ (∀ (gw : Internal.Infrastructure.Payment.Gateway)
        (payment : PaymentService.Domain.Payment)
        (cardInfo : PaymentService.Domain.CreditCardInfo)
        (now1 now2 : Internal.Infrastructure.Payment.Clock),
        payment.Status = PaymentService.Domain.PaymentStatusCompleted →
        (Internal.Infrastructure.Payment.ProcessPayment gw payment cardInfo now1
          now2).sent = [] ∧
        (Internal.Infrastructure.Payment.ProcessPayment gw payment cardInfo now1
          now2).payment = payment) := by
  intro h
  have h1 := (h Internal.Infrastructure.Payment.sampleGateway
    (PaymentService.Domain.sample PaymentService.Domain.PaymentStatusCompleted "ch_0")
    Internal.Infrastructure.Payment.sampleCard ⟨2026, 11⟩ ⟨2026, 11⟩ rfl).2
  revert h1
  decide

/-- Claim C21, amended: `ProcessPayment` does not read the status. On a COMPLETED payment it
sends nothing to the gateway only when the card is rejected; with a card that passes
validation it sends the token request again and, once the gateway gives a token, the charge
request again, and on a paid charge it replaces the transaction reference by the ID of the
new charge; the status stays COMPLETED. The entry point `ProcessCreditCardPayment` is a
stub: for every request it returns no payment and the error `Unimplemented`, and sends
nothing to the gateway. -/
theorem C21_settle_on_completed (gw : Internal.Infrastructure.Payment.Gateway)
    (payment : PaymentService.Domain.Payment)
    (cardInfo : PaymentService.Domain.CreditCardInfo)
    (now1 now2 : Internal.Infrastructure.Payment.Clock)
    (hstatus : payment.Status = PaymentService.Domain.PaymentStatusCompleted) :
    (Internal.Infrastructure.Payment.ValidateCard cardInfo now1 now2 ≠ none →
      (Internal.Infrastructure.Payment.ProcessPayment gw payment cardInfo now1 now2).sent =
          [] ∧
        (Internal.Infrastructure.Payment.ProcessPayment gw payment cardInfo now1
          now2).payment = payment) ∧
    (Internal.Infrastructure.Payment.ValidateCard cardInfo now1 now2 = none →
      (∀ err, gw.TokensNew (Internal.Infrastructure.Payment.tokenParams cardInfo) =
          .error err →
        (Internal.Infrastructure.Payment.ProcessPayment gw payment cardInfo now1 now2).sent =
          [.TokensNew (Internal.Infrastructure.Payment.tokenParams cardInfo)]) ∧
      (∀ token, gw.TokensNew (Internal.Infrastructure.Payment.tokenParams cardInfo) =
          .ok token →
        (Internal.Infrastructure.Payment.ProcessPayment gw payment cardInfo now1 now2).sent =
          [.TokensNew (Internal.Infrastructure.Payment.tokenParams cardInfo),
            .ChargeNew (Internal.Infrastructure.Payment.chargeParams payment token)])) ∧
    ((Internal.Infrastructure.Payment.ProcessPayment gw payment cardInfo now1 now2).err =
        none →
      ∃ token ch,
        gw.TokensNew (Internal.Infrastructure.Payment.tokenParams cardInfo) = .ok token ∧
        gw.ChargeNew (Internal.Infrastructure.Payment.chargeParams payment token) = .ok ch ∧
        ch.Paid = true ∧
        (Internal.Infrastructure.Payment.ProcessPayment gw payment cardInfo now1
          now2).payment = { payment with TransactionID := ch.ID }) ∧
    (Internal.Infrastructure.Payment.ProcessPayment gw payment cardInfo now1
      now2).payment.Status = PaymentService.Domain.PaymentStatusCompleted ∧
    (∀ (CreditCardPaymentRequest PbPayment : Type) (h : Internal.Handler.PaymentHandler)
        (req : CreditCardPaymentRequest),
      (h.ProcessCreditCardPayment req : Internal.Handler.Reply PbPayment).payment = none ∧
      (h.ProcessCreditCardPayment req : Internal.Handler.Reply PbPayment).err =
        some ⟨Internal.Handler.Unimplemented,
          "method ProcessCreditCardPayment not implemented"⟩ ∧
      (h.ProcessCreditCardPayment req : Internal.Handler.Reply PbPayment).sent = []) := by
  have hsent := Internal.Infrastructure.Payment.ProcessPayment_sent gw payment cardInfo now1
    now2
  have hpay := Internal.Infrastructure.Payment.ProcessPayment_payment gw payment cardInfo
    now1 now2
  refine ⟨?_, hsent.2, ?_, ?_, ?_⟩
  · intro hv
    refine ⟨hsent.1 hv, ?_⟩
    cases hv2 : Internal.Infrastructure.Payment.ValidateCard cardInfo now1 now2 with
    | none => exact absurd hv2 hv
    | some err => simp [Internal.Infrastructure.Payment.ProcessPayment, hv2]
  · intro he
    rcases hpay with ⟨hne, _⟩ | ⟨token, ch, ht, hc, hpaid, _, hp⟩
    · exact absurd he hne
    · exact ⟨token, ch, ht, hc, hpaid, hp⟩
  · rcases hpay with ⟨_, hp⟩ | ⟨token, ch, ht, hc, hpaid, _, hp⟩
    · rw [hp]; exact hstatus
    · rw [hp]; exact hstatus
  · intro Req Resp h req
    exact ⟨rfl, rfl, rfl⟩

/-- Claim C21, amended, at a concrete input: on the sample payment, COMPLETED with the
reference `ch_0`, with the sample card on 2026-11 and the sample gateway, `ProcessPayment`
sends the token request and the charge request again. -/
theorem C21_settle_on_completed_witness :
    (Internal.Infrastructure.Payment.ProcessPayment
        Internal.Infrastructure.Payment.sampleGateway
        (PaymentService.Domain.sample PaymentService.Domain.PaymentStatusCompleted "ch_0")
        Internal.Infrastructure.Payment.sampleCard ⟨2026, 11⟩ ⟨2026, 11⟩).sent =
      [.TokensNew (Internal.Infrastructure.Payment.tokenParams
          Internal.Infrastructure.Payment.sampleCard),
        .ChargeNew (Internal.Infrastructure.Payment.chargeParams
          (PaymentService.Domain.sample PaymentService.Domain.PaymentStatusCompleted "ch_0")
          ⟨"tok_1"⟩)] :=
  ((C21_settle_on_completed Internal.Infrastructure.Payment.sampleGateway
      (PaymentService.Domain.sample PaymentService.Domain.PaymentStatusCompleted "ch_0")
      Internal.Infrastructure.Payment.sampleCard ⟨2026, 11⟩ ⟨2026, 11⟩ rfl).2.1
    (by decide)).2 ⟨"tok_1"⟩ rfl

namespace Internal.Infrastructure.Blockchain

/-- On 64-bit heights with the receipt ahead of the head, the `uint64` subtraction wraps
around: it is `2^64` minus the distance. -/
theorem uint64Sub_of_gt (currentBlock receiptBlock : Nat)
    (hr : receiptBlock < 18446744073709551616) (hlt : currentBlock < receiptBlock) :
    uint64Sub currentBlock (Big.Int.Uint64 (receiptBlock : Int)) =
      18446744073709551616 - (receiptBlock - currentBlock) := by
  unfold uint64Sub Big.Int.Uint64
  rw [Int.natAbs_ofNat]
  omega

/-- A found, successful receipt in a block ahead of the reported head is CONFIRMED, and
verified, for every threshold up to `2^64` minus the distance. -/
theorem receipt_ahead_of_head_confirmed (p : MetaMaskProcessor)
    (payment : PaymentService.Domain.Payment) (transactionHash : String) (receipt : Receipt)
    (receiptBlock currentBlock : Nat)
    (hlen : transactionHash.utf8ByteSize = 66)
    (hpre : transactionHash.toList.take 2 = ['0', 'x'])
    (hr : p.client.TransactionReceipt transactionHash = .ok receipt)
    (hs : receipt.Status = ReceiptStatusSuccessful)
    (hrb : receipt.BlockNumber = (receiptBlock : Int))
    (hb : p.client.BlockNumber = .ok currentBlock)
    (h64 : receiptBlock < 18446744073709551616) (hlt : currentBlock < receiptBlock)
    (hmin : p.minConfirmations ≤ 18446744073709551616 - (receiptBlock - currentBlock)) :
    p.GetTransactionStatus transactionHash = ("CONFIRMED", none) ∧
      p.VerifyTransaction payment transactionHash = none := by
  have hwf := (malformedHash_eq_false_iff transactionHash).mpr ⟨hlen, hpre⟩
  have hV := MetaMaskProcessor.VerifyTransaction_of_success p payment transactionHash receipt
    currentBlock hwf hr hs hb
  have hG := MetaMaskProcessor.GetTransactionStatus_of_success p transactionHash receipt
    currentBlock hwf hr hs hb
  rw [hrb, uint64Sub_of_gt currentBlock receiptBlock h64 hlt] at hV hG
  have hnlt : ¬ 18446744073709551616 - (receiptBlock - currentBlock) < p.minConfirmations := by
    omega
  rw [hV, hG, if_neg hnlt, if_neg hnlt]
  exact ⟨rfl, rfl⟩

end Internal.Infrastructure.Blockchain

/-- Claim C22, the code at a failing input: with `minConfirmations = 6`, a found and
successful receipt in block 101 and the head reported at 100, the `uint64` subtraction
`currentBlock - receiptBlock` wraps to `2^64 - 1`, which is not below the threshold:
`VerifyTransaction` returns nil and `GetTransactionStatus` returns CONFIRMED. -/
theorem C22_receipt_ahead_of_head_is_confirmed :
    Internal.Infrastructure.Blockchain.uint64Sub 100 (Big.Int.Uint64 101) =
      18446744073709551615 ∧
    (Internal.Infrastructure.Blockchain.processorWith
        (Internal.Infrastructure.Blockchain.nodeWith (.ok ⟨1, 101⟩) (.ok 100))
        6).VerifyTransaction (PaymentService.Domain.sample "PROCESSING" "")
        Internal.Infrastructure.Blockchain.sampleHash = none ∧
    (Internal.Infrastructure.Blockchain.processorWith
        (Internal.Infrastructure.Blockchain.nodeWith (.ok ⟨1, 101⟩) (.ok 100))
        6).GetTransactionStatus Internal.Infrastructure.Blockchain.sampleHash =
      ("CONFIRMED", none) ∧
    Internal.Infrastructure.Blockchain.malformedHash
      Internal.Infrastructure.Blockchain.sampleHash = false := by
  decide
